import Mathlib

/-!
Verification of the GitHub event summarization engine
(`src/backend/src/services/github.ts`).

The engine is a pure function from an event-type string and a JSON payload to
an HTML summary string.  We shallowly embed the module: JSON values become the
inductive `Json` below, JavaScript runtime errors become `Except JsError`, and
each `summarize*` function of the source is translated one-to-one.

Modelling conventions (each noted again at the definition it concerns):
* JSON numbers are modelled as integers (`Int`); the payloads the engine
  documents all carry integral counts, ids and prices, and JavaScript renders
  integral doubles exactly like integers.
* Strings are modelled at the level of Unicode code points; `toLowerCase`,
  `toUpperCase`, `trim` and `\s` are modelled on ASCII, which covers every
  string the engine itself introduces.
* `undefined` is modelled as `Option.none`; JavaScript `null` is the explicit
  constructor `Json.null`.  This keeps the source's `??`, `=== undefined` and
  `=== null` tests faithful.
* Arrays and objects are encoded with cons cells (`anil/acons`, `onil/ocons`)
  rather than nested `List`s so that every definition is structurally
  recursive and evaluates inside the kernel.  `jArr`/`jObj` build them from
  ordinary lists.
-/

namespace GhSummary

/-! ## JavaScript string primitives -/

/-- ASCII whitespace, the fragment of JavaScript `\s` and `trim()` exercised here. -/
def isWs (c : Char) : Bool :=
  c = ' ' || c = '\t' || c = '\n' || c = '\r'

/-- `toLowerCase` on a code point (ASCII fragment): `A`–`Z` shift down into
`a`–`z`. -/
def lowerCharNat (n : Nat) : Nat := if 65 ≤ n ∧ n ≤ 90 then n + 32 else n

/-- One character of `String.prototype.toLowerCase` (ASCII fragment). -/
def lowerChar (c : Char) : Char := Char.ofNat (lowerCharNat c.toNat)

/-- `toUpperCase` on a code point (ASCII fragment). -/
def upperCharNat (n : Nat) : Nat := if 97 ≤ n ∧ n ≤ 122 then n - 32 else n

/-- One character of `String.prototype.toUpperCase` (ASCII fragment). -/
def upperChar (c : Char) : Char := Char.ofNat (upperCharNat c.toNat)

/-- JavaScript `s.toLowerCase()` (ASCII fragment). -/
def jsToLowerCase (s : String) : String := ⟨s.data.map lowerChar⟩

/-- JavaScript `s.trim()`: strip leading and trailing whitespace. -/
def jsTrim (s : String) : String :=
  ⟨((s.data.dropWhile isWs).reverse.dropWhile isWs).reverse⟩

/-- JavaScript `s.slice(0, n)` / `String.prototype.slice` with a start of 0:
the first `n` characters. -/
def jsSliceTo (s : String) (n : Nat) : String := ⟨s.data.take n⟩

/-- Split a character list at every occurrence of the separator character,
keeping empty segments — JavaScript `s.split("/")` semantics. -/
def splitCharList (sep : Char) : List Char → List (List Char)
  | [] => [[]]
  | c :: rest =>
    let r := splitCharList sep rest
    if c = sep then [] :: r
    else match r with
      | [] => [[c]]
      | seg :: segs => (c :: seg) :: segs

/-- JavaScript `s.split(sep)` for a one-character separator. -/
def jsSplitChar (s : String) (sep : Char) : List String :=
  (splitCharList sep s.data).map (fun l => ⟨l⟩)

/-- The first segment of JavaScript `text.split(/\r?\n/, 1)[0]`: everything up
to the first `"\n"` or `"\r\n"`.  A carriage return not followed by a line
feed does not split. -/
def firstSegment : List Char → List Char
  | [] => []
  | '\r' :: '\n' :: _ => []
  | '\n' :: _ => []
  | '\r' :: rest => '\r' :: firstSegment rest
  | c :: rest => c :: firstSegment rest

/-- Split a character list into maximal runs of non-whitespace — the effect of
JavaScript `s.split(/\s+/)` on a trimmed string. -/
def wordsAux : List Char → List Char → List (List Char)
  | acc, [] => if acc.isEmpty then [] else [acc.reverse]
  | acc, c :: rest =>
    if isWs c then
      if acc.isEmpty then wordsAux [] rest
      else acc.reverse :: wordsAux [] rest
    else wordsAux (c :: acc) rest

/-- The whitespace-separated words of a string. -/
def jsWords (s : String) : List String := (wordsAux [] s.data).map (fun l => ⟨l⟩)

/-- HTML escape of a single character, as produced by the source's chained
`replace` calls (`&` first, so nothing is double-escaped; the chain is
equivalent to this character-wise map). -/
def escChar (c : Char) : List Char :=
  if c = '&' then "&amp;".data
  else if c = '<' then "&lt;".data
  else if c = '>' then "&gt;".data
  else if c = '"' then "&quot;".data
  else [c]

/-- HTML-escape a string: `&`, `<`, `>`, `"` become entities. -/
def htmlEscape (s : String) : String := ⟨(s.data.map escChar).flatten⟩

/-- `lines.join("\n")`. -/
def joinLines : List String → String
  | [] => ""
  | a :: t => t.foldl (fun acc x => acc ++ "\n" ++ x) a

/-- `parts.join(", ")`. -/
def joinCommaSpace : List String → String
  | [] => ""
  | a :: t => t.foldl (fun acc x => acc ++ ", " ++ x) a

/-! ## JSON values -/

/-- A JSON value.  Arrays and objects are cons-cell encoded: a well-formed
array is a chain of `acons` ending in `anil`, likewise `ocons`/`onil` for
objects (built by `jArr`/`jObj`).  The flat encoding keeps all recursion
structural. -/
inductive Json where
  | null
  | bool (b : Bool)
  | num (n : Int)
  | str (s : String)
  | anil
  | acons (head : Json) (tail : Json)
  | onil
  | ocons (key : String) (val : Json) (tail : Json)
deriving DecidableEq

/-- Build an array value from a list. -/
def jArr : List Json → Json
  | [] => .anil
  | x :: xs => .acons x (jArr xs)

/-- Build an object value from a field list. -/
def jObj : List (String × Json) → Json
  | [] => .onil
  | (k, v) :: xs => .ocons k v (jObj xs)

namespace Json

/-- `typeof v === "object"` and not `null` — arrays included. -/
def isObjectLike : Json → Bool
  | .onil | .ocons _ _ _ | .anil | .acons _ _ => true
  | _ => false

/-- `Array.isArray(v)`. -/
def isArray : Json → Bool
  | .anil | .acons _ _ => true
  | _ => false

/-- A non-array object (what `ensureMapping` accepts). -/
def isMapping : Json → Bool
  | .onil | .ocons _ _ _ => true
  | _ => false

/-- JavaScript truthiness of a defined value. -/
def truthy : Json → Bool
  | .null => false
  | .bool b => b
  | .num n => n != 0
  | .str s => s ≠ ""
  | _ => true

/-- Property read `o[k]` on an object; `none` is JavaScript `undefined`.
Named (non-index) properties of arrays and of primitives are absent for every
name this module reads, so those cases yield `undefined`. -/
def get : Json → String → Option Json
  | .ocons k v t, key => if k = key then some v else get t key
  | _, _ => none

/-- Decode an array chain into a list (non-arrays decode to `[]`). -/
def toList : Json → List Json
  | .acons h t => h :: toList t
  | _ => []

/-- JavaScript `String(v)` for a defined value.  Arrays stringify as their
elements joined by `","` with `null` elements blank; objects as
`"[object Object]"`.  The auxiliary flag is true at the head of an array
chain (no leading comma) and false inside it. -/
def toJsString : Bool → Json → String
  | _, .null => "null"
  | _, .bool b => if b then "true" else "false"
  | _, .num n => toString n
  | _, .str s => s
  | _, .onil => "[object Object]"
  | _, .ocons _ _ _ => "[object Object]"
  | _, .anil => ""
  | true, .acons h t =>
    (match h with
     | .null => ""
     | h => toJsString true h) ++ toJsString false t
  | false, .acons h t =>
    "," ++
    (match h with
     | .null => ""
     | h => toJsString true h) ++ toJsString false t

end Json

/-- JavaScript `String(v)`. -/
def jsString (v : Json) : String := Json.toJsString true v

/-- An `undefined`-aware JSON value: `none` is JavaScript `undefined`. -/
abbrev JsVal := Option Json

/-- JavaScript truthiness (`undefined` is falsy). -/
def jsTruthy : JsVal → Bool
  | none => false
  | some j => j.truthy

/-- Is the value `null` or `undefined`? -/
def isNullish : JsVal → Bool
  | none => true
  | some .null => true
  | _ => false

/-- JavaScript `a ?? b`. -/
def jsCoalesce (a b : JsVal) : JsVal := if isNullish a then b else a

/-- JavaScript `a || b` (on values). -/
def jsOr (a b : JsVal) : JsVal := if jsTruthy a then a else b

/-- JavaScript optional chaining `v?.k`. -/
def optGet (v : JsVal) (k : String) : JsVal :=
  match v with
  | none => none
  | some .null => none
  | some j => j.get k

/-- JavaScript `String(v)` where `undefined` prints as `"undefined"`. -/
def jsStringV : JsVal → String
  | none => "undefined"
  | some j => jsString j

/-- JavaScript string-on-object field read used all over the source:
`obj.k` for an object-typed local. -/
def fget (data : Json) (k : String) : JsVal := data.get k

/-! ## The module's shared helpers (`github.ts` lines 8–250) -/

/-- `MAX_COMMITS` (line 8). -/
def MAX_COMMITS : Nat := 5

/-- `UNKNOWN` (line 9). -/
def UNKNOWN : String := "unknown"

/-- `esc(value)` (lines 11–13): `String(value ?? "")` with `&`, `<`, `>`, `"`
replaced in that order; the chained global replaces equal the character-wise
`htmlEscape`. -/
def esc (value : JsVal) : String :=
  htmlEscape (jsStringV (jsCoalesce value (some (.str ""))))

/-- `esc` applied to an argument statically known to be a string. -/
def escS (s : String) : String := htmlEscape s

/-- `link(url, text?)` (lines 15–21): empty unless `url` is a non-empty
string; the label defaults to the URL when `text` is absent or falsy. -/
def link (url : JsVal) (text : Option String) : String :=
  match url with
  | some (.str s) =>
    if s = "" then ""
    else
      let label := match text with
        | some t => if t = "" then s else t
        | none => s
      "<a href=\"" ++ escS s ++ "\">" ++ escS label ++ "</a>"
  | _ => ""

/-- `link` with a url statically known to be a string. -/
def linkS (url : String) (text : Option String) : String :=
  link (some (.str url)) text

/-- `firstLine(text, limit = 120)` (lines 23–28): empty for non-strings;
otherwise the segment before the first newline, cut to `limit` characters. -/
def firstLine (text : JsVal) (limit : Nat) : String :=
  match text with
  | some (.str s) => if s = "" then "" else ⟨(firstSegment s.data).take limit⟩
  | _ => ""

/-- `ensureMapping(data)` (lines 30–35): the value itself when it is a
non-array object, else `{}`. -/
def ensureMapping (data : JsVal) : Json :=
  match data with
  | some j => if j.isMapping then j else .onil
  | _ => .onil

/-- `dig(data, path)` (lines 37–49): walk nested keys; a falsy or
non-object intermediate yields `undefined`; a `null`/`undefined` member is
returned as encountered. -/
def dig (data : JsVal) : List String → JsVal
  | [] => data
  | key :: rest =>
    match data with
    | some j =>
      if j.isObjectLike then
        match j.get key with
        | none => none
        | some .null => some .null
        | some v => dig (some v) rest
      else none
    | none => none

/-- `SUBJECT_NAME_FIELDS` (lines 51–67). -/
def SUBJECT_NAME_FIELDS : List (List String) :=
  [["title"], ["name"], ["login"], ["slug"], ["ref"], ["branch"], ["tag"],
   ["tag_name"], ["environment"], ["key"], ["pattern"], ["sha"], ["node_id"],
   ["id"], ["number"]]

/-- `SUBJECT_URL_FIELDS` (lines 69–75). -/
def SUBJECT_URL_FIELDS : List (List String) :=
  [["html_url"], ["url"], ["target_url"], ["links", "html"], ["links", "self"]]

/-- `text.startsWith("#")`. -/
def hashStart (s : String) : Bool :=
  match s.data with
  | '#' :: _ => true
  | _ => false

/-- The 160-character cap of `extractSubject` (lines 100–102 and 119–121):
text longer than 160 characters becomes its first 157 followed by `"..."`. -/
def truncate160 (text : String) : String :=
  if text.length > 160 then jsSliceTo text 157 ++ "..." else text

/-- The name-selection loop of `extractSubject` (lines 85–104): the first
candidate field with a non-nullish, non-object value whose trimmed string
form is non-empty; a value found under `number` is prefixed with `#` unless
it already starts with one. -/
def subjectNameLoop (data : Json) : List (List String) → String
  | [] => ""
  | candidate :: rest =>
    match dig (some data) candidate with
    | none => subjectNameLoop data rest
    | some .null => subjectNameLoop data rest
    | some v =>
      if v.isObjectLike then subjectNameLoop data rest
      else
        let text := jsTrim (jsString v)
        if text = "" then subjectNameLoop data rest
        else
          let text :=
            if candidate.getLast? = some "number" && text ≠ "" && !hashStart text
            then "#" ++ text else text
          truncate160 text

/-- The url-selection loop of `extractSubject` (lines 105–112) and the
`urlFields` loop of `genericActionSummary` (lines 274–282): the first field
holding a non-empty string. -/
def urlLoop (data : Json) : List (List String) → String
  | [] => ""
  | candidate :: rest =>
    match dig (some data) candidate with
    | some (.str s) => if s = "" then urlLoop data rest else s
    | _ => urlLoop data rest

/-- `{name, url}` result of `extractSubject`. -/
structure Subject where
  name : String
  url : String
deriving DecidableEq

/-- `extractSubject(data, fields?)` (lines 81–123).  Non-array objects are
scanned field-wise; `null` and `""` yield the empty subject; any other value
(scalars, and arrays, which stringify) is `String(data)` truncated, with no
url. -/
def extractSubject (data : Json) (fields : Option (List (List String))) : Subject :=
  match data with
  | .onil | .ocons _ _ _ =>
    ⟨subjectNameLoop data (fields.getD SUBJECT_NAME_FIELDS),
     urlLoop data SUBJECT_URL_FIELDS⟩
  | .null => ⟨"", ""⟩
  | .str "" => ⟨"", ""⟩
  | d => ⟨truncate160 (jsString d), ""⟩

/-- The `spec` argument of `resolveSubject`: the source passes `undefined`,
a single field name, or an array of field names. -/
inductive SubjSpec where
  | nullSpec
  | strSpec (s : String)
  | keys (l : List String)

/-- The path loop of `resolveSubject` (lines 145–151): first truthy hit,
else `null`. -/
def resolveLoop (payload : Json) : List (List String) → JsVal
  | [] => some .null
  | path :: rest =>
    let subject := dig (some payload) path
    if jsTruthy subject then subject else resolveLoop payload rest

/-- `resolveSubject(payload, spec)` (lines 125–152). -/
def resolveSubject (payload : Json) (spec : SubjSpec) : JsVal :=
  match spec with
  | .nullSpec => some .null
  | .strSpec s => resolveLoop payload [[s]]
  | .keys l => resolveLoop payload (l.map (fun s => [s]))

/-- The path list of `actor` (lines 155–166). -/
def actorPaths : List (List String) :=
  [["sender", "login"], ["sender", "name"], ["user", "login"], ["user", "name"],
   ["actor", "login"], ["actor", "name"], ["pusher", "name"], ["pusher", "email"],
   ["installation", "account", "login"], ["installation", "account", "name"]]

/-- The string-valued path scan shared by `actor` and `repo`. -/
def pathScan (payload : Json) : List (List String) → String
  | [] => ""
  | path :: rest =>
    match dig (some payload) path with
    | some (.str s) => if s = "" then pathScan payload rest else s
    | _ => pathScan payload rest

/-- `actor(payload)` (lines 154–174). -/
def actor (payload : Json) : String := pathScan payload actorPaths

/-- `repo(payload)` (lines 176–188). -/
def repo (payload : Json) : String :=
  pathScan payload [["repository", "full_name"], ["repository", "name"]]

/-- `word.charAt(0).toUpperCase() + word.slice(1)`. -/
def capitalize (w : String) : String :=
  match w.data with
  | [] => ""
  | c :: rest => ⟨upperChar c :: rest⟩

/-- `parts.join(" ")`. -/
def joinSpace : List String → String
  | [] => ""
  | a :: t => t.foldl (fun acc x => acc ++ " " ++ x) a

/-- `prettyLabel(event)` (lines 190–199): underscores to spaces, trim,
title-case each whitespace-separated word; `"Event"` when nothing remains. -/
def prettyLabel (event : String) : String :=
  let words := jsTrim ⟨event.data.map (fun c => if c = '_' then ' ' else c)⟩
  if words = "" then "Event"
  else joinSpace ((jsWords words).map capitalize)

/-- A thrown JavaScript error, carrying its `.message` and what
`node:util.inspect` would print for it. -/
structure JsError where
  message : String
  inspected : String
deriving DecidableEq

/-- `(error as Error).message || inspect(error)` (line 216). -/
def errText (e : JsError) : String :=
  if e.message = "" then e.inspected else e.message

/-- A resolved `ExtraValue` (line 77): `string | string[] | undefined`. -/
inductive ExtraValue where
  | undef
  | strV (s : String)
  | listV (l : List String)

/-- The `Extra` union (line 79): a value or a resolver function (whose
invocation may throw). -/
inductive Extra where
  | noneE
  | strE (s : String)
  | listE (l : List String)
  | funE (f : Json → Except JsError ExtraValue)

/-- `callableExtra(extra, payload)` (lines 201–226).  A throwing resolver is
caught and rendered as one italic `extra error` line. -/
def callableExtra (extra : Extra) (payload : Json) : List String :=
  match extra with
  | .noneE => []
  | .funE f =>
    match f payload with
    | .ok (.strV s) => if s = "" then [] else [s]
    | .ok (.listV l) => l.filter (fun item => item ≠ "")
    | .ok .undef => []
    | .error e => ["<i>extra error: " ++ escS (errText e) ++ "</i>"]
  | .strE s => if s = "" then [] else [s]
  | .listE l => l.filter (fun item => item ≠ "")

/-- `formatMainLine(options)` (lines 228–250). -/
def formatMainLine (label action subjectName repoName actorName : String) : String :=
  let line := "<b>" ++ escS label ++ "</b>"
  let line := if subjectName ≠ "" then line ++ ": " ++ escS subjectName else line
  let line := if action ≠ "" then line ++ " <b>" ++ escS action ++ "</b>" else line
  let line := if repoName ≠ "" then line ++ " in <code>" ++ escS repoName ++ "</code>" else line
  let line :=
    if actorName ≠ "" && actorName ≠ UNKNOWN
    then line ++ " by <b>" ++ escS actorName ++ "</b>" else line
  line

/-- The options record of `genericActionSummary` (lines 255–260). -/
structure GenOpts where
  subject : SubjSpec
  subjectFields : Option (List (List String))
  urlFields : Option (List (List String))
  extra : Extra

/-- `genericActionSummary(label, payloadInput, options)` (lines 252–304). -/
def genericActionSummary (label : String) (payloadInput : Json) (options : GenOpts) : String :=
  let payload := ensureMapping (some payloadInput)
  let action := jsTrim (jsStringV (jsCoalesce (fget payload "action") (some (.str ""))))
  let actorName := let a := actor payload; if a = "" then UNKNOWN else a
  let repoName := repo payload
  let subjectData := resolveSubject payload options.subject
  let subjPair : String × String :=
    if isNullish subjectData then ("", "")
    else
      match subjectData with
      | some sd =>
        let subject := extractSubject sd options.subjectFields
        let url :=
          if subject.url = "" then
            match options.urlFields with
            | some ufs => if sd.isObjectLike then urlLoop sd ufs else ""
            | none => ""
          else subject.url
        (subject.name, url)
      | none => ("", "")
  let lines := [formatMainLine label action subjPair.1 repoName actorName]
  let lines := lines ++ (if subjPair.2 ≠ "" then [linkS subjPair.2 (some "View details")] else [])
  let lines := lines ++ (callableExtra options.extra payload).filter (fun line => line ≠ "")
  joinLines lines

/-! ## Per-event summarizers (`github.ts` lines 306–1641)

Every summarizer has the handler type `Json → Except JsError String`; the two
that can actually raise a `TypeError` under JSON input
(`summarizeCommitComment` and `summarizePullRequestReview`) use the error
side, all others are wrapped with `Except.ok` in the dispatch table. -/

/-- `s || d` for strings. -/
def orDefault (s d : String) : String := if s = "" then d else s

/-- `Array.isArray(v) ? v : []`. -/
def jsArrayOf (v : JsVal) : List Json :=
  match v with
  | some j => if j.isArray then j.toList else []
  | none => []

/-- `s.startsWith(pfx)`. -/
def strStartsWith (s pfx : String) : Bool := pfx.data.isPrefixOf s.data

/-- `typeof v === "string" ? v : dflt` — the guarded string reads of the
source. -/
def strOr (v : JsVal) (dflt : String) : String :=
  match v with
  | some (.str s) => s
  | _ => dflt

/-- `v ?? dflt` packaged back into a value, with a string default. -/
def orStr (v : JsVal) (dflt : String) : JsVal :=
  jsCoalesce v (some (.str dflt))

/-- `summarizePing` (lines 306–356). -/
def summarizePing (payload : Json) : String :=
  let data := ensureMapping (some payload)
  let repoName := orDefault (repo data) "?"
  let zen := orStr (fget data "zen") ""
  let hook := ensureMapping (fget data "hook")
  let hookId := jsCoalesce (fget data "hook_id") (orStr (fget hook "id") "?")
  let cfg := ensureMapping (fget hook "config")
  let events := jsArrayOf (fget hook "events")
  let lastResponse := orStr (fget (ensureMapping (fget hook "last_response")) "status") "unknown"
  let createdAt := orStr (fget hook "created_at") ""
  let updatedAt := orStr (fget hook "updated_at") ""
  let payloadUrl := fget cfg "url"
  let testUrl := fget hook "test_url"
  let pingUrl := fget hook "ping_url"
  let lines :=
    ["<b>GitHub webhook ping received</b>",
     "repository: <code>" ++ escS repoName ++ "</code>",
     "hook_id: <code>" ++ esc hookId ++ "</code>"]
  let lines := lines ++
    (if events.length > 0 then
      ["events: " ++ joinCommaSpace (events.map (fun evt => "<code>" ++ esc (some evt) ++ "</code>"))]
     else ["events: <code>*</code>"])
  let lines := lines ++
    ["payload_url: " ++ (if jsTruthy payloadUrl then link payloadUrl none else "<code>-</code>")]
  let lines := lines ++ ["last_response: <code>" ++ esc lastResponse ++ "</code>"]
  let lines := lines ++
    (if jsTruthy createdAt then ["created_at: <code>" ++ esc createdAt ++ "</code>"] else [])
  let lines := lines ++
    (if jsTruthy updatedAt then ["updated_at: <code>" ++ esc updatedAt ++ "</code>"] else [])
  let lines := lines ++ (if jsTruthy testUrl then ["test_url: " ++ link testUrl none] else [])
  let lines := lines ++ (if jsTruthy pingUrl then ["ping_url: " ++ link pingUrl none] else [])
  let lines := lines ++ (if jsTruthy zen then ["zen: " ++ esc zen] else [])
  joinLines lines

/-- `summarizeCreate` (lines 358–366). -/
def summarizeCreate (payload : Json) : String :=
  let data := ensureMapping (some payload)
  let repoName := repo data
  let refType := orStr (fget data "ref_type") "ref"
  let ref := orStr (fget data "ref") "?"
  let actorName := orDefault (actor data) UNKNOWN
  let repoPart := if repoName ≠ "" then " in <code>" ++ escS repoName ++ "</code>" else ""
  "<b>Create</b> " ++ esc refType ++ " <code>" ++ esc ref ++ "</code>" ++ repoPart ++
    " by <b>" ++ escS actorName ++ "</b>"

/-- `summarizeDelete` (lines 368–376). -/
def summarizeDelete (payload : Json) : String :=
  let data := ensureMapping (some payload)
  let repoName := repo data
  let refType := orStr (fget data "ref_type") "ref"
  let ref := orStr (fget data "ref") "?"
  let actorName := orDefault (actor data) UNKNOWN
  let repoPart := if repoName ≠ "" then " from <code>" ++ escS repoName ++ "</code>" else ""
  "<b>Delete</b> " ++ esc refType ++ " <code>" ++ esc ref ++ "</code>" ++ repoPart ++
    " by <b>" ++ escS actorName ++ "</b>"

/-- One commit entry of the `summarizePush` loop (lines 417–426): the
`<code>{sha7}</code> {first message line}` line plus an optional link line. -/
def commitEntry (commitRaw : Json) : List String :=
  let commit := ensureMapping (some commitRaw)
  let sha := match fget commit "id" with
    | some (.str s) => jsSliceTo s 7
    | _ => ""
  let message := firstLine (fget commit "message") 120
  let url := strOr (fget commit "url") ""
  ["<code>" ++ escS sha ++ "</code> " ++ escS message] ++
    (if url ≠ "" then [linkS url (some "View commit")] else [])

/-- The rendered commit entries, blank-line separated — the
`index < shown - 1` bookkeeping of the source loop (lines 417–430). -/
def commitBlock : List Json → List String
  | [] => []
  | [c] => commitEntry c
  | c :: rest => commitEntry c ++ [""] ++ commitBlock rest

/-- The branch computation of `summarizePush` (line 384):
`typeof ref === "string" && ref ? ref.split("/").pop() ?? "unknown" : "unknown"`
(`split` never returns an empty array, so `pop()` cannot be `undefined`). -/
def pushBranchName (ref : JsVal) : String :=
  match ref with
  | some (.str s) => if s = "" then "unknown" else ((jsSplitChar s '/').getLast?.getD "unknown")
  | _ => "unknown"

/-- `summarizePush` (lines 378–441). -/
def summarizePush (payload : Json) : String :=
  let data := ensureMapping (some payload)
  let repoName := orDefault (repo data) "?"
  let repoUrl := dig (some data) ["repository", "html_url"]
  let ref := orStr (fget data "ref") ""
  let isTag := match ref with
    | some (.str s) => strStartsWith s "refs/tags/"
    | _ => false
  let branch := pushBranchName ref
  let deleted := jsTruthy (fget data "deleted")
  let forced := jsTruthy (fget data "forced")
  let actorName :=
    let v := jsCoalesce (dig (some data) ["pusher", "name"]) (some (.str (actor data)))
    if jsTruthy v then v else some (.str UNKNOWN)
  let commits := jsArrayOf (fget data "commits")
  let compareUrl := strOr (fget data "compare") ""
  let targetLabel := if isTag then "tag" else "branch"
  let lines :=
    if deleted then
      ["<b>Deleted</b> " ++ targetLabel ++ " <code>" ++ escS branch ++ "</code>" ++
        " from <code>" ++ escS repoName ++ "</code> by <b>" ++ esc actorName ++ "</b>"]
    else
      let commitCount := commits.length
      let plural := if commitCount = 1 then "commit" else "commits"
      let head :=
        "<b>Push</b> to " ++ targetLabel ++ " <code>" ++ escS branch ++ "</code>" ++
          " in <code>" ++ escS repoName ++ "</code> by <b>" ++ esc actorName ++ "</b>" ++
          " (" ++ toString commitCount ++ " " ++ plural ++ ")"
      let head := if forced then head ++ " <i>(forced)</i>" else head
      [head] ++
        (if compareUrl ≠ "" then [linkS compareUrl (some "Compare")] else []) ++
        (if commits.length > 0 then
          let overflow : Int := (commits.length : Int) - (MAX_COMMITS : Int)
          [""] ++ commitBlock (commits.take MAX_COMMITS) ++
            (if overflow > 0 then ["<i>+" ++ toString overflow ++ " more commits</i>"] else [])
         else [])
  let lines := lines ++
    (if deleted && jsTruthy repoUrl then [link repoUrl (some "Repository")] else [])
  joinLines lines

/-- `summarizePullRequest` (lines 443–471).  The one action rewrite of the
module: a closed-and-merged pull request displays `merged`. -/
def summarizePullRequest (payload : Json) : String :=
  let data := ensureMapping (some payload)
  let action0 := orStr (fget data "action") ""
  let repoName := orDefault (repo data) "?"
  let pr := ensureMapping (fget data "pull_request")
  let number := jsCoalesce (fget pr "number") (orStr (fget data "number") "?")
  let title := orStr (fget pr "title") ""
  let actorName := orDefault (actor data) UNKNOWN
  let headRef := jsCoalesce (dig (some pr) ["head", "ref"]) (some (.str "?"))
  let baseRef := jsCoalesce (dig (some pr) ["base", "ref"]) (some (.str "?"))
  let merged := jsTruthy (fget pr "merged")
  let url := fget pr "html_url"
  let action := if action0 == some (.str "closed") && merged then some (.str "merged") else action0
  let lines :=
    ["<b>Pull request</b> <code>" ++ escS repoName ++ "</code> #" ++ esc number ++
      " <b>" ++ esc action ++ "</b> by <b>" ++ escS actorName ++ "</b>"]
  let lines := lines ++ (if jsTruthy title then ["<b>" ++ esc title ++ "</b>"] else [])
  let lines := lines ++ [esc headRef ++ " → " ++ esc baseRef]
  let lines := lines ++ (if jsTruthy url then [link url (some "View pull request")] else [])
  joinLines lines

/-- `summarizeIssues` (lines 473–493). -/
def summarizeIssues (payload : Json) : String :=
  let data := ensureMapping (some payload)
  let action := orStr (fget data "action") ""
  let repoName := orDefault (repo data) "?"
  let issue := ensureMapping (fget data "issue")
  let number := jsCoalesce (fget issue "number") (orStr (fget data "number") "?")
  let title := orStr (fget issue "title") ""
  let actorName := orDefault (actor data) UNKNOWN
  let url := fget issue "html_url"
  let lines :=
    ["<b>Issue</b> <code>" ++ escS repoName ++ "</code> #" ++ esc number ++
      " <b>" ++ esc action ++ "</b> by <b>" ++ escS actorName ++ "</b>"]
  let lines := lines ++ (if jsTruthy title then ["<b>" ++ esc title ++ "</b>"] else [])
  let lines := lines ++ (if jsTruthy url then [link url (some "View issue")] else [])
  joinLines lines

/-- `summarizeIssueComment` (lines 495–516). -/
def summarizeIssueComment (payload : Json) : String :=
  let data := ensureMapping (some payload)
  let action := orStr (fget data "action") ""
  let issue := ensureMapping (fget data "issue")
  let comment := ensureMapping (fget data "comment")
  let actorName := orDefault (actor data) UNKNOWN
  let repoName := orDefault (repo data) "?"
  let number := orStr (fget issue "number") "?"
  let excerpt := firstLine (fget comment "body") 200
  let url := jsCoalesce (fget comment "html_url") (fget issue "html_url")
  let lines :=
    ["<b>Issue comment</b> on <code>" ++ escS repoName ++ "</code> #" ++ esc number ++
      " <b>" ++ esc action ++ "</b> by <b>" ++ escS actorName ++ "</b>"]
  let lines := lines ++ (if excerpt ≠ "" then [escS excerpt] else [])
  let lines := lines ++ (if jsTruthy url then [link url (some "View comment")] else [])
  joinLines lines

/-- The `TypeError` raised by `state.toLowerCase()` when `review.state` is a
truthy non-string (line 533). -/
def toLowerCaseErr : JsError :=
  ⟨"state.toLowerCase is not a function", "TypeError: state.toLowerCase is not a function"⟩

/-- `summarizePullRequestReview` (lines 518–543).  The guard
`state && state.toLowerCase() !== String(action).toLowerCase()` throws when
`state` is truthy but not a string. -/
def summarizePullRequestReview (payload : Json) : Except JsError String := do
  let data := ensureMapping (some payload)
  let action := orStr (fget data "action") ""
  let review := ensureMapping (fget data "review")
  let pr := ensureMapping (fget data "pull_request")
  let actorName := orDefault (actor data) UNKNOWN
  let repoName := orDefault (repo data) "?"
  let number := jsCoalesce (fget pr "number") (orStr (fget data "number") "?")
  let state := orStr (fget review "state") ""
  let body := firstLine (fget review "body") 200
  let url := jsCoalesce (fget review "html_url") (fget pr "html_url")
  let stateLines ←
    if jsTruthy state then
      match state with
      | some (.str s) =>
        pure (if jsToLowerCase s ≠ jsToLowerCase (jsStringV action)
              then ["state: <code>" ++ esc state ++ "</code>"] else [])
      | _ => Except.error toLowerCaseErr
    else pure ([] : List String)
  let lines :=
    ["<b>Pull request review</b> on <code>" ++ escS repoName ++ "</code> #" ++ esc number ++
      " <b>" ++ esc (jsOr action state) ++ "</b> by <b>" ++ escS actorName ++ "</b>"]
  let lines := lines ++ stateLines
  let lines := lines ++ (if body ≠ "" then [escS body] else [])
  let lines := lines ++ (if jsTruthy url then [link url (some "View review")] else [])
  pure (joinLines lines)

/-- `summarizePullRequestReviewComment` (lines 545–572).  Note the source
interpolates `position` into the file line without escaping. -/
def summarizePullRequestReviewComment (payload : Json) : String :=
  let data := ensureMapping (some payload)
  let action := orStr (fget data "action") ""
  let comment := ensureMapping (fget data "comment")
  let pr := ensureMapping (fget data "pull_request")
  let repoName := orDefault (repo data) "?"
  let actorName := orDefault (actor data) UNKNOWN
  let number := jsCoalesce (fget pr "number") (orStr (fget data "number") "?")
  let path := orStr (fget comment "path") ""
  let position := fget comment "position"
  let body := firstLine (fget comment "body") 200
  let url := jsCoalesce (fget comment "html_url") (fget pr "html_url")
  let lines :=
    ["<b>PR review comment</b> on <code>" ++ escS repoName ++ "</code> #" ++ esc number ++
      " <b>" ++ esc action ++ "</b> by <b>" ++ escS actorName ++ "</b>"]
  let lines := lines ++
    (if jsTruthy path then
      let positionText := if !isNullish position then " (line " ++ jsStringV position ++ ")" else ""
      ["file: <code>" ++ esc path ++ "</code>" ++ positionText]
     else [])
  let lines := lines ++ (if body ≠ "" then [escS body] else [])
  let lines := lines ++ (if jsTruthy url then [link url (some "View comment")] else [])
  joinLines lines

/-- `summarizePullRequestReviewThread` (lines 574–595). -/
def summarizePullRequestReviewThread (payload : Json) : String :=
  let data := ensureMapping (some payload)
  let action := orStr (fget data "action") ""
  let thread := ensureMapping (fget data "thread")
  let pr := ensureMapping (fget data "pull_request")
  let repoName := orDefault (repo data) "?"
  let number := jsCoalesce (fget pr "number") (orStr (fget data "number") "?")
  let actorName := orDefault (actor data) UNKNOWN
  let url := jsCoalesce (fget thread "html_url") (fget pr "html_url")
  let path := orStr (fget thread "path") ""
  let lines :=
    ["<b>PR review thread</b> on <code>" ++ escS repoName ++ "</code> #" ++ esc number ++
      " <b>" ++ esc action ++ "</b> by <b>" ++ escS actorName ++ "</b>"]
  let lines := lines ++ (if jsTruthy path then ["file: <code>" ++ esc path ++ "</code>"] else [])
  let lines := lines ++ (if jsTruthy url then [link url (some "View thread")] else [])
  joinLines lines

/-- `summarizeRelease` (lines 597–620). -/
def summarizeRelease (payload : Json) : String :=
  let data := ensureMapping (some payload)
  let action := orStr (fget data "action") ""
  let release := ensureMapping (fget data "release")
  let repoName := orDefault (repo data) "?"
  let name := jsCoalesce (fget release "name") (orStr (fget release "tag_name") "release")
  let url := fget release "html_url"
  let body := firstLine (fget release "body") 200
  let draft := if jsTruthy (fget release "draft") then " (draft)" else ""
  let prerelease := if jsTruthy (fget release "prerelease") then " (pre-release)" else ""
  let actorName := orDefault (actor data) UNKNOWN
  let lines :=
    ["<b>Release</b> <code>" ++ escS repoName ++ "</code> <b>" ++ esc action ++
      "</b> by <b>" ++ escS actorName ++ "</b>",
     "<b>" ++ esc name ++ "</b>" ++ draft ++ prerelease]
  let lines := lines ++ (if body ≠ "" then [escS body] else [])
  let lines := lines ++ (if jsTruthy url then [link url (some "View release")] else [])
  joinLines lines

/-- `summarizeStatus` (lines 622–641). -/
def summarizeStatus (payload : Json) : String :=
  let data := ensureMapping (some payload)
  let state := orStr (fget data "state") ""
  let repoName := orDefault (repo data) "?"
  let sha := match fget data "sha" with
    | some (.str s) => jsSliceTo s 7
    | _ => ""
  let context := orStr (fget data "context") ""
  let description := orStr (fget data "description") ""
  let targetUrl := orStr (fget data "target_url") ""
  let lines :=
    ["<b>Status</b> <code>" ++ escS repoName ++ "</code> <code>" ++ esc context ++
      "</code> → <b>" ++ esc state ++ "</b> for <code>" ++ escS sha ++ "</code>"]
  let lines := lines ++ (if jsTruthy description then [esc description] else [])
  let lines := lines ++ (if jsTruthy targetUrl then [link targetUrl (some "View status")] else [])
  joinLines lines

/-- `summarizeDeployment` (lines 643–666). -/
def summarizeDeployment (payload : Json) : String :=
  let data := ensureMapping (some payload)
  let deployment := ensureMapping (fget data "deployment")
  let repoName := orDefault (repo data) "?"
  let actorName := orDefault (actor data) UNKNOWN
  let environment := orStr (fget deployment "environment") "?"
  let ref := orStr (fget deployment "ref") ""
  let description := orStr (fget deployment "description") ""
  let url := jsCoalesce (fget deployment "statuses_url") (fget deployment "url")
  let lines :=
    ["<b>Deployment</b> <code>" ++ escS repoName ++ "</code> → <b>" ++ esc environment ++
      "</b> by <b>" ++ escS actorName ++ "</b>"]
  let lines := lines ++ (if jsTruthy ref then ["ref: <code>" ++ esc ref ++ "</code>"] else [])
  let lines := lines ++ (if jsTruthy description then [esc description] else [])
  let lines := lines ++ (if jsTruthy url then [link url (some "Deployment API")] else [])
  joinLines lines

/-- `summarizeDeploymentStatus` (lines 668–689). -/
def summarizeDeploymentStatus (payload : Json) : String :=
  let data := ensureMapping (some payload)
  let deployment := ensureMapping (fget data "deployment")
  let status := ensureMapping (fget data "deployment_status")
  let repoName := orDefault (repo data) "?"
  let actorName := orDefault (actor data) UNKNOWN
  let environment := jsCoalesce (fget deployment "environment") (orStr (fget status "environment") "?")
  let state := orStr (fget status "state") ""
  let description := orStr (fget status "description") ""
  let targetUrl := orStr (fget status "target_url") ""
  let lines :=
    ["<b>Deployment status</b> <code>" ++ escS repoName ++ "</code> → <b>" ++ esc environment ++
      "</b> is <b>" ++ esc state ++ "</b> by <b>" ++ escS actorName ++ "</b>"]
  let lines := lines ++ (if jsTruthy description then [esc description] else [])
  let lines := lines ++ (if jsTruthy targetUrl then [link targetUrl (some "Target")] else [])
  joinLines lines

/-- `summarizeDeploymentReview` (lines 691–708). -/
def summarizeDeploymentReview (payload : Json) : String :=
  let data := ensureMapping (some payload)
  let deployment := ensureMapping (fget data "deployment")
  let review := ensureMapping (fget data "review")
  let environment := jsCoalesce (fget deployment "environment") (orStr (fget review "environment") "?")
  let state := orStr (fget review "state") ""
  let actorName := orDefault (actor data) UNKNOWN
  let repoName := orDefault (repo data) "?"
  let url := fget review "html_url"
  let lines :=
    ["<b>Deployment review</b> <code>" ++ escS repoName ++ "</code> → <b>" ++ esc environment ++
      "</b> <b>" ++ esc state ++ "</b> by <b>" ++ escS actorName ++ "</b>"]
  let lines := lines ++ (if jsTruthy url then [link url (some "View review")] else [])
  joinLines lines

/-- `summarizeDeploymentProtectionRule` (lines 710–718). -/
def summarizeDeploymentProtectionRule (payload : Json) : String :=
  let data := ensureMapping (some payload)
  let environment :=
    jsCoalesce (fget data "environment")
      (jsCoalesce (dig (some data) ["deployment_protection_rule", "environment"]) (some (.str "?")))
  let actorName := orDefault (actor data) UNKNOWN
  let action := orStr (fget data "action") ""
  let repoName := orDefault (repo data) "?"
  "<b>Deployment protection rule</b> <code>" ++ escS repoName ++ "</code> → <b>" ++
    esc environment ++ "</b> <b>" ++ esc action ++ "</b> by <b>" ++ escS actorName ++ "</b>"

/-- `summarizeDiscussion` (lines 720–745). -/
def summarizeDiscussion (payload : Json) : String :=
  let data := ensureMapping (some payload)
  let discussion := ensureMapping (fget data "discussion")
  let action := orStr (fget data "action") ""
  let title := orStr (fget discussion "title") ""
  let url := fget discussion "html_url"
  let repoName := repo data
  let actorName := orDefault (actor data) UNKNOWN
  let category := jsCoalesce (dig (some discussion) ["category", "name"]) (some (.str ""))
  let head := "<b>Discussion</b> <b>" ++ esc action ++ "</b> by <b>" ++ escS actorName ++ "</b>"
  let head := if repoName ≠ "" then head ++ " in <code>" ++ escS repoName ++ "</code>" else head
  let lines := [head]
  let lines := lines ++ (if jsTruthy title then ["<b>" ++ esc title ++ "</b>"] else [])
  let lines := lines ++
    (if jsTruthy category then ["category: <code>" ++ esc category ++ "</code>"] else [])
  let lines := lines ++ (if jsTruthy url then [link url (some "View discussion")] else [])
  joinLines lines

/-- `summarizeDiscussionComment` (lines 747–769). -/
def summarizeDiscussionComment (payload : Json) : String :=
  let data := ensureMapping (some payload)
  let discussion := ensureMapping (fget data "discussion")
  let comment := ensureMapping (fget data "comment")
  let action := orStr (fget data "action") ""
  let actorName := orDefault (actor data) UNKNOWN
  let url := jsCoalesce (fget comment "html_url") (fget discussion "html_url")
  let body := firstLine (fget comment "body") 200
  let title := orStr (fget discussion "title") ""
  let head := "<b>Discussion comment</b> <b>" ++ esc action ++ "</b> by <b>" ++ escS actorName ++ "</b>"
  let head := if jsTruthy title then head ++ " on <b>" ++ esc title ++ "</b>" else head
  let lines := [head]
  let lines := lines ++ (if body ≠ "" then [escS body] else [])
  let lines := lines ++ (if jsTruthy url then [link url (some "View comment")] else [])
  joinLines lines

/-- `summarizeFork` (lines 771–787). -/
def summarizeFork (payload : Json) : String :=
  let data := ensureMapping (some payload)
  let repoName := orDefault (repo data) "?"
  let forkee := ensureMapping (fget data "forkee")
  let forkFull := jsCoalesce (fget forkee "full_name") (orStr (fget forkee "name") "?")
  let forkUrl := jsCoalesce (fget forkee "html_url") (fget forkee "svn_url")
  let actorName := orDefault (actor data) UNKNOWN
  let lines :=
    ["<b>Fork</b> of <code>" ++ escS repoName ++ "</code> created by <b>" ++ escS actorName ++ "</b>",
     "new repo: <code>" ++ esc forkFull ++ "</code>"]
  let lines := lines ++ (if jsTruthy forkUrl then [link forkUrl (some "View fork")] else [])
  joinLines lines

/-- One wiki page entry of the `summarizeGollum` loop (lines 798–807). -/
def gollumPage (page : Json) : List String :=
  let pageData := ensureMapping (some page)
  let title := orStr (fget pageData "title") "page"
  let action := orStr (fget pageData "action") ""
  let url := jsCoalesce (fget pageData "html_url") (fget pageData "page_name")
  ["• <b>" ++ esc action ++ "</b> " ++ esc title] ++
    (if jsTruthy url then [link url (some "View page")] else [])

/-- `summarizeGollum` (lines 789–809). -/
def summarizeGollum (payload : Json) : String :=
  let data := ensureMapping (some payload)
  let pages := jsArrayOf (fget data "pages")
  let repoName := orDefault (repo data) "?"
  let actorName := orDefault (actor data) UNKNOWN
  let lines :=
    ["<b>Wiki update</b> in <code>" ++ escS repoName ++ "</code> by <b>" ++ escS actorName ++ "</b>"] ++
      (pages.map gollumPage).flatten
  joinLines lines

/-- `esc(repoData.full_name ?? repoData.name ?? "?")` for one repository entry
(lines 824–827 and 851–854 and 864–867). -/
def repoEntryName (repoInfo : Json) : String :=
  let repoData := ensureMapping (some repoInfo)
  esc (jsCoalesce (fget repoData "full_name") (orStr (fget repoData "name") "?"))

/-- `summarizeInstallation` (lines 811–835). -/
def summarizeInstallation (payload : Json) : String :=
  let data := ensureMapping (some payload)
  let installation := ensureMapping (fget data "installation")
  let action := orStr (fget data "action") ""
  let account := ensureMapping (fget installation "account")
  let accountLogin := jsCoalesce (fget account "login") (orStr (fget account "name") "?")
  let repositories := jsArrayOf (fget installation "repositories")
  let repoCount := repositories.length
  let lines := ["<b>Installation</b> <b>" ++ esc action ++ "</b> for <b>" ++ esc accountLogin ++ "</b>"]
  let lines := lines ++
    (if repoCount > 0 then
      let sample := (repositories.take 5).map repoEntryName
      let summary := joinCommaSpace sample
      let summary :=
        if repoCount > 5 then summary ++ " … (+" ++ toString (repoCount - 5) ++ ")" else summary
      ["repositories: " ++ summary]
     else [])
  joinLines lines

/-- The `added:`/`removed:` list text of `summarizeInstallationRepositories`
(lines 848–875). -/
def installationRepoListText (l : List Json) : String :=
  let text := joinCommaSpace ((l.take 5).map repoEntryName)
  let more : Int := (l.length : Int) - 5
  if more > 0 then text ++ " … (+" ++ toString more ++ ")" else text

/-- `summarizeInstallationRepositories` (lines 837–877). -/
def summarizeInstallationRepositories (payload : Json) : String :=
  let data := ensureMapping (some payload)
  let action := orStr (fget data "action") ""
  let installation := ensureMapping (fget data "installation")
  let account := ensureMapping (fget installation "account")
  let accountLogin := jsCoalesce (fget account "login") (orStr (fget account "name") "?")
  let added := jsArrayOf (fget data "repositories_added")
  let removed := jsArrayOf (fget data "repositories_removed")
  let lines :=
    ["<b>Installation repositories</b> <b>" ++ esc action ++ "</b> for <b>" ++ esc accountLogin ++ "</b>"]
  let lines := lines ++
    (if added.length > 0 then ["added: " ++ installationRepoListText added] else [])
  let lines := lines ++
    (if removed.length > 0 then ["removed: " ++ installationRepoListText removed] else [])
  joinLines lines

/-- `summarizeInstallationTarget` (lines 879–897). -/
def summarizeInstallationTarget (payload : Json) : String :=
  let data := ensureMapping (some payload)
  let action := orStr (fget data "action") ""
  let installation := ensureMapping (fget data "installation")
  let account := ensureMapping (fget installation "account")
  let targetType := orStr (fget installation "target_type") ""
  let login := jsCoalesce (fget account "login") (orStr (fget account "name") "?")
  let repoSelection := orStr (fget installation "repository_selection") ""
  let lines :=
    ["<b>Installation target</b> <b>" ++ esc action ++ "</b> for <b>" ++ esc login ++ "</b>"]
  let lines := lines ++
    (if jsTruthy targetType then ["target: <code>" ++ esc targetType ++ "</code>"] else [])
  let lines := lines ++
    (if jsTruthy repoSelection
     then ["repository_selection: <code>" ++ esc repoSelection ++ "</code>"] else [])
  joinLines lines

/-- `summarizeMember` (lines 899–907). -/
def summarizeMember (payload : Json) : String :=
  genericActionSummary "Member" payload
    ⟨.strSpec "member", some [["login"], ["name"]], none, .noneE⟩

/-- `summarizeMembership` (lines 909–924). -/
def summarizeMembership (payload : Json) : String :=
  let data := ensureMapping (some payload)
  let action := orStr (fget data "action") ""
  let team := ensureMapping (fget data "team")
  let org := ensureMapping (fget data "organization")
  let user := ensureMapping (fget data "user")
  let teamName := jsCoalesce (fget team "name") (orStr (fget team "slug") "team")
  let orgLogin := orStr (fget org "login") "?"
  let userLogin := jsCoalesce (fget user "login") (orStr (fget user "name") "?")
  joinLines
    ["<b>Membership</b> <b>" ++ esc action ++ "</b> in <b>" ++ esc teamName ++ "</b> @" ++
      esc orgLogin,
     "member: <b>" ++ esc userLogin ++ "</b>"]

/-- One hexadecimal digit (lowercase), for JSON control-character escapes. -/
def hexDigit (n : Nat) : Char :=
  if n < 10 then Char.ofNat (48 + n) else Char.ofNat (87 + n)

/-- The JSON escape of one character inside a quoted string, as emitted by
`JSON.stringify`. -/
def jsonEscChar (c : Char) : List Char :=
  if c = '"' then ['\\', '"']
  else if c = '\\' then ['\\', '\\']
  else if c = '\n' then ['\\', 'n']
  else if c = '\r' then ['\\', 'r']
  else if c = '\t' then ['\\', 't']
  else if c = (Char.ofNat 8) then ['\\', 'b']
  else if c = (Char.ofNat 12) then ['\\', 'f']
  else if c.toNat < 32 then
    ['\\', 'u', '0', '0', hexDigit (c.toNat / 16), hexDigit (c.toNat % 16)]
  else [c]

/-- `JSON.stringify` of a string value. -/
def jsonQuote (s : String) : String :=
  ⟨'"' :: (s.data.map jsonEscChar).flatten ++ ['"']⟩

/-- `JSON.stringify` of a JSON tree (values produced by `JSON.parse` carry no
`undefined`, functions or cycles).  The flag is true at the head of an
array/object chain — where the opening bracket is emitted — and false inside
it, where elements are comma-prefixed and the closing bracket is emitted at
the chain's end. -/
def jsonStringifyAux : Bool → Json → String
  | _, .null => "null"
  | _, .bool b => if b then "true" else "false"
  | _, .num n => toString n
  | _, .str s => jsonQuote s
  | true, .anil => "[]"
  | true, .acons h t => "[" ++ jsonStringifyAux true h ++ jsonStringifyAux false t
  | false, .anil => "]"
  | false, .acons h t => "," ++ jsonStringifyAux true h ++ jsonStringifyAux false t
  | true, .onil => "\x7b\x7d"
  | true, .ocons k v t =>
    "\x7b" ++ jsonQuote k ++ ":" ++ jsonStringifyAux true v ++ jsonStringifyAux false t
  | false, .onil => "\x7d"
  | false, .ocons k v t =>
    "," ++ jsonQuote k ++ ":" ++ jsonStringifyAux true v ++ jsonStringifyAux false t

/-- `JSON.stringify(value)`. -/
def jsonStringify (value : Json) : String := jsonStringifyAux true value

/-- `summarizeMeta` (lines 926–933). -/
def summarizeMeta (payload : Json) : String :=
  let data := ensureMapping (some payload)
  let hook := ensureMapping (fget data "hook")
  let hookId := orStr (fget hook "id") "?"
  let changes := ensureMapping (fget data "changes")
  "<b>Meta</b> webhook <code>" ++ esc hookId ++ "</code> updated: " ++
    escS (jsonStringify changes)

/-- `summarizeMilestone` (lines 935–944). -/
def summarizeMilestone (payload : Json) : String :=
  genericActionSummary "Milestone" payload
    ⟨.strSpec "milestone", some [["title"], ["description"], ["number"]], none, .noneE⟩

/-- `summarizeOrgBlock` (lines 946–955). -/
def summarizeOrgBlock (payload : Json) : String :=
  let data := ensureMapping (some payload)
  let action := orStr (fget data "action") ""
  let organization := ensureMapping (fget data "organization")
  let blockedUser := ensureMapping (fget data "blocked_user")
  let orgLogin := orStr (fget organization "login") "?"
  let userLogin := jsCoalesce (fget blockedUser "login") (orStr (fget blockedUser "name") "?")
  "<b>Org block</b> <b>" ++ esc action ++ "</b> @" ++ esc orgLogin ++ " user <b>" ++
    esc userLogin ++ "</b>"

/-- `Object.keys(o).length > 0` for a mapping. -/
def hasFields : Json → Bool
  | .ocons _ _ _ => true
  | _ => false

/-- `summarizeOrganization` (lines 957–973). -/
def summarizeOrganization (payload : Json) : String :=
  let data := ensureMapping (some payload)
  let action := orStr (fget data "action") ""
  let membership := ensureMapping (fget data "membership")
  let invitation := ensureMapping (fget data "invitation")
  let lines := ["<b>Organization</b> <b>" ++ esc action ++ "</b>"]
  let lines := lines ++
    (if hasFields membership then
      let login := jsCoalesce (optGet (fget membership "user") "login") (some (.str "?"))
      let role := orStr (fget membership "role") ""
      ["member: <b>" ++ esc login ++ "</b> role <code>" ++ esc role ++ "</code>"]
     else [])
  let lines := lines ++
    (if hasFields invitation then
      let invitee := jsCoalesce (fget invitation "login") (orStr (fget invitation "email") "?")
      ["invitation: <code>" ++ esc invitee ++ "</code>"]
     else [])
  joinLines lines

/-- `summarizePageBuild` (lines 975–992). -/
def summarizePageBuild (payload : Json) : String :=
  let data := ensureMapping (some payload)
  let build := ensureMapping (fget data "build")
  let status := orStr (fget build "status") ""
  let url := orStr (fget build "url") ""
  let error := ensureMapping (fget build "error")
  let message := orStr (fget error "message") ""
  let repoName := orDefault (repo data) "?"
  let lines :=
    ["<b>Page build</b> <code>" ++ escS repoName ++ "</code> → <b>" ++ esc status ++ "</b>"]
  let lines := lines ++ (if jsTruthy message then [esc message] else [])
  let lines := lines ++ (if jsTruthy url then [link url (some "View build")] else [])
  joinLines lines

/-- `summarizePersonalAccessTokenRequest` (lines 994–1011). -/
def summarizePersonalAccessTokenRequest (payload : Json) : String :=
  let data := ensureMapping (some payload)
  let action := orStr (fget data "action") ""
  let request := ensureMapping (fget data "personal_access_token_request")
  let requestId := orStr (fget request "id") "?"
  let state := orStr (fget request "state") ""
  let actorName := orDefault (actor data) UNKNOWN
  let org := jsCoalesce (dig (some data) ["organization", "login"]) (some (.str "?"))
  let lines :=
    ["<b>Personal access token request</b> <b>" ++ esc action ++ "</b> — request <code>" ++
      esc requestId ++ "</code> for @" ++ esc org]
  let lines := lines ++ (if jsTruthy state then ["state: <code>" ++ esc state ++ "</code>"] else [])
  let lines := lines ++ ["by <b>" ++ escS actorName ++ "</b>"]
  joinLines lines

/-- `summarizeProject` (lines 1013–1022). -/
def summarizeProject (payload : Json) : String :=
  genericActionSummary "Project" payload
    ⟨.strSpec "project", some [["name"], ["body"], ["number"]], none, .noneE⟩

/-- `summarizeProjectCard` (lines 1024–1033). -/
def summarizeProjectCard (payload : Json) : String :=
  genericActionSummary "Project card" payload
    ⟨.strSpec "project_card", some [["note"], ["column_name"], ["id"]], none, .noneE⟩

/-- `summarizeProjectColumn` (lines 1035–1043). -/
def summarizeProjectColumn (payload : Json) : String :=
  genericActionSummary "Project column" payload
    ⟨.strSpec "project_column", some [["name"], ["id"]], none, .noneE⟩

/-- `summarizeProjectsV2` (lines 1045–1054). -/
def summarizeProjectsV2 (payload : Json) : String :=
  genericActionSummary "Project" payload
    ⟨.strSpec "projects_v2", some [["title"], ["number"], ["id"]], none, .noneE⟩

/-- `summarizeProjectsV2Item` (lines 1056–1065). -/
def summarizeProjectsV2Item (payload : Json) : String :=
  genericActionSummary "Project item" payload
    ⟨.strSpec "projects_v2_item", some [["title"], ["content_type"], ["id"]], none, .noneE⟩

/-- `summarizeProjectsV2StatusUpdate` (lines 1067–1076). -/
def summarizeProjectsV2StatusUpdate (payload : Json) : String :=
  genericActionSummary "Project status update" payload
    ⟨.strSpec "projects_v2_status_update", some [["status"], ["title"], ["id"]], none, .noneE⟩

/-- `summarizePublic` (lines 1078–1083). -/
def summarizePublic (payload : Json) : String :=
  let data := ensureMapping (some payload)
  let repoName := orDefault (repo data) "?"
  let actorName := orDefault (actor data) UNKNOWN
  "<b>Repository public</b> <code>" ++ escS repoName ++ "</code> by <b>" ++ escS actorName ++ "</b>"

/-- `summarizeRegistryPackage` (lines 1085–1094). -/
def summarizeRegistryPackage (payload : Json) : String :=
  genericActionSummary "Registry package" payload
    ⟨.strSpec "registry_package", some [["name"], ["package_type"], ["id"]], none, .noneE⟩

/-- `summarizeRepository` (lines 1096–1105). -/
def summarizeRepository (payload : Json) : String :=
  genericActionSummary "Repository" payload
    ⟨.strSpec "repository", some [["full_name"], ["name"], ["id"]], none, .noneE⟩

/-- `Object.entries` of an object chain. -/
def objEntries : Json → List (String × Json)
  | .ocons k v t => (k, v) :: objEntries t
  | _ => []

/-- `Object.entries` of an array chain: index keys in order. -/
def arrEntries (i : Nat) : Json → List (String × Json)
  | .acons h t => (toString i, h) :: arrEntries (i + 1) t
  | _ => []

/-- `Object.entries(v)` for object-typed values. -/
def jsEntries (j : Json) : List (String × Json) :=
  match j with
  | .anil | .acons _ _ => arrEntries 0 j
  | _ => objEntries j

/-- `summarizeRepositoryDispatch` (lines 1107–1126). -/
def summarizeRepositoryDispatch (payload : Json) : String :=
  let data := ensureMapping (some payload)
  let eventType := jsCoalesce (fget data "action") (orStr (fget data "event_type") "dispatch")
  let repoName := orDefault (repo data) "?"
  let actorName := orDefault (actor data) UNKNOWN
  let lines :=
    ["<b>Repository dispatch</b> <code>" ++ escS repoName ++ "</code> event <code>" ++
      esc eventType ++ "</code> by <b>" ++ escS actorName ++ "</b>"]
  let clientPayload := fget data "client_payload"
  let lines := lines ++
    (match clientPayload with
     | some j =>
       if j.truthy && j.isObjectLike then
         let entries := (jsEntries j).take 6
         if entries.length > 0 then
           ["payload: " ++
             joinCommaSpace (entries.map (fun kv => escS kv.1 ++ "=" ++ esc (some kv.2)))]
         else []
       else []
     | none => [])
  joinLines lines

/-- `summarizeRepositoryImport` (lines 1128–1143). -/
def summarizeRepositoryImport (payload : Json) : String :=
  let data := ensureMapping (some payload)
  let status := orStr (fget data "status") ""
  let repoName := orDefault (repo data) "?"
  let human := orStr (fget data "human_name") ""
  let progress := fget data "progress"
  let lines :=
    ["<b>Repository import</b> <code>" ++ escS repoName ++ "</code> → <b>" ++ esc status ++ "</b>"]
  let lines := lines ++ (if jsTruthy human then [esc human] else [])
  let lines := lines ++
    (if !isNullish progress then ["progress: <code>" ++ esc progress ++ "</code>"] else [])
  joinLines lines

/-- `summarizeRepositoryRuleset` (lines 1145–1154). -/
def summarizeRepositoryRuleset (payload : Json) : String :=
  genericActionSummary "Repository ruleset" payload
    ⟨.strSpec "ruleset", some [["name"], ["target"], ["id"]], none, .noneE⟩

/-- `summarizeRepositoryVulnerabilityAlert` (lines 1156–1180). -/
def summarizeRepositoryVulnerabilityAlert (payload : Json) : String :=
  let data := ensureMapping (some payload)
  let alert := ensureMapping (fget data "alert")
  let action := orStr (fget data "action") ""
  let repoName := orDefault (repo data) "?"
  let actorName := orDefault (actor data) UNKNOWN
  let dependency := ensureMapping (fget alert "affected_package")
  let packageName :=
    jsCoalesce (fget dependency "name")
      (jsCoalesce (dig (some alert) ["security_advisory", "summary"]) (some (.str "dependency")))
  let severity := jsCoalesce (dig (some alert) ["security_advisory", "severity"]) (some (.str ""))
  let url := dig (some alert) ["security_advisory", "html_url"]
  let lines :=
    ["<b>Repository vulnerability alert</b> <code>" ++ escS repoName ++ "</code> <b>" ++
      esc action ++ "</b> — <b>" ++ esc packageName ++ "</b> by <b>" ++ escS actorName ++ "</b>"]
  let lines := lines ++
    (if jsTruthy severity then ["severity: <code>" ++ esc severity ++ "</code>"] else [])
  let lines := lines ++ (if jsTruthy url then [link url (some "View advisory")] else [])
  joinLines lines

/-- `summarizeSecretScanningAlert` (lines 1182–1201). -/
def summarizeSecretScanningAlert (payload : Json) : String :=
  let data := ensureMapping (some payload)
  let alert := ensureMapping (fget data "alert")
  let action := orStr (fget data "action") ""
  let repoName := orDefault (repo data) "?"
  let secretType :=
    jsCoalesce (fget alert "secret_type_display_name") (orStr (fget alert "secret_type") "secret")
  let state := orStr (fget alert "state") ""
  let url := fget alert "html_url"
  let lines :=
    ["<b>Secret scanning alert</b> <code>" ++ escS repoName ++ "</code> <b>" ++ esc action ++
      "</b> — <b>" ++ esc secretType ++ "</b>"]
  let lines := lines ++ (if jsTruthy state then ["state: <code>" ++ esc state ++ "</code>"] else [])
  let lines := lines ++ (if jsTruthy url then [link url (some "View alert")] else [])
  joinLines lines

/-- `summarizeSecretScanningAlertLocation` (lines 1203–1221). -/
def summarizeSecretScanningAlertLocation (payload : Json) : String :=
  let data := ensureMapping (some payload)
  let location := ensureMapping (fget data "location")
  let alert := ensureMapping (fget data "alert")
  let repoName := orDefault (repo data) "?"
  let typeName := orStr (fget location "type") "location"
  let details := ensureMapping (fget location "details")
  let path := orStr (fget details "path") ""
  let url := fget alert "html_url"
  let lines :=
    ["<b>Secret scanning location</b> <code>" ++ escS repoName ++ "</code> → <b>" ++
      esc typeName ++ "</b>"]
  let lines := lines ++ (if jsTruthy path then ["path: <code>" ++ esc path ++ "</code>"] else [])
  let lines := lines ++ (if jsTruthy url then [link url (some "View alert")] else [])
  joinLines lines

/-- `summarizeSecretScanningScan` (lines 1223–1225). -/
def summarizeSecretScanningScan (payload : Json) : String :=
  genericActionSummary "Secret scanning scan" payload ⟨.nullSpec, none, none, .noneE⟩

/-- `summarizeSecurityAdvisory` (lines 1227–1236). -/
def summarizeSecurityAdvisory (payload : Json) : String :=
  genericActionSummary "Security advisory" payload
    ⟨.strSpec "security_advisory", some [["summary"], ["ghsa_id"], ["cve_id"]], none, .noneE⟩

/-- `summarizeSecurityAndAnalysis` (lines 1238–1242). -/
def summarizeSecurityAndAnalysis (payload : Json) : String :=
  genericActionSummary "Security & analysis" payload
    ⟨.strSpec "security_and_analysis", none, none, .noneE⟩

/-- `summarizeSponsorship` (lines 1244–1266). -/
def summarizeSponsorship (payload : Json) : String :=
  let data := ensureMapping (some payload)
  let action := orStr (fget data "action") ""
  let sponsorship := ensureMapping (fget data "sponsorship")
  let sponsor := jsCoalesce (fget sponsorship "sponsor") (fget sponsorship "account")
  let sponsorName :=
    jsCoalesce (fget (ensureMapping sponsor) "login")
      (orStr (fget (ensureMapping sponsor) "name") "sponsor")
  let sponsorable := ensureMapping (fget sponsorship "sponsorable")
  let sponsorableName :=
    jsCoalesce (fget sponsorable "login") (orStr (fget sponsorable "name") "sponsorable")
  let tier := ensureMapping (fget sponsorship "tier")
  let amount :=
    jsCoalesce (fget tier "monthly_price_in_dollars") (orStr (fget tier "monthly_price") "")
  let tierName := orStr (fget tier "name") ""
  let lines :=
    ["<b>Sponsorship</b> <b>" ++ esc action ++ "</b> — <b>" ++ esc sponsorName ++
      "</b> → <b>" ++ esc sponsorableName ++ "</b>"]
  let lines := lines ++
    (if jsTruthy tierName then ["tier: <code>" ++ esc tierName ++ "</code>"] else [])
  let lines := lines ++
    (if jsTruthy amount then ["amount: <code>" ++ esc amount ++ "</code>"] else [])
  joinLines lines

/-- `summarizeStar` (lines 1268–1274). -/
def summarizeStar (payload : Json) : String :=
  let data := ensureMapping (some payload)
  let action := orStr (fget data "action") ""
  let repoName := orDefault (repo data) "?"
  let actorName := orDefault (actor data) UNKNOWN
  "<b>Star</b> <code>" ++ escS repoName ++ "</code> <b>" ++ esc action ++ "</b> by <b>" ++
    escS actorName ++ "</b>"

/-- `summarizeSubIssues` (lines 1276–1284). -/
def summarizeSubIssues (payload : Json) : String :=
  genericActionSummary "Sub-issues" payload
    ⟨.keys ["sub_issue", "issue"], some [["title"], ["number"]], none, .noneE⟩

/-- `summarizeTeam` (lines 1286–1295). -/
def summarizeTeam (payload : Json) : String :=
  genericActionSummary "Team" payload
    ⟨.strSpec "team", some [["name"], ["slug"], ["id"]], none, .noneE⟩

/-- `summarizeTeamAdd` (lines 1297–1304). -/
def summarizeTeamAdd (payload : Json) : String :=
  let data := ensureMapping (some payload)
  let team := ensureMapping (fget data "team")
  let repoData := ensureMapping (fget data "repository")
  let teamName := jsCoalesce (fget team "name") (orStr (fget team "slug") "team")
  let repoName := jsCoalesce (fget repoData "full_name") (orStr (fget repoData "name") "repository")
  "<b>Team add</b> team <b>" ++ esc teamName ++ "</b> added to <code>" ++ esc repoName ++ "</code>"

/-- `summarizeWatch` (lines 1306–1312). -/
def summarizeWatch (payload : Json) (event : String) : String :=
  let data := ensureMapping (some payload)
  let action := orStr (fget data "action") "started"
  let repoName := orDefault (repo data) "?"
  let actorName := orDefault (actor data) UNKNOWN
  "<b>" ++ escS (prettyLabel event) ++ "</b> <code>" ++ escS repoName ++ "</code> <b>" ++
    esc action ++ "</b> by <b>" ++ escS actorName ++ "</b>"

/-- `summarizeWorkflowDispatch` (lines 1314–1322). -/
def summarizeWorkflowDispatch (payload : Json) : String :=
  genericActionSummary "Workflow dispatch" payload
    ⟨.strSpec "workflow", some [["name"], ["path"]], none, .noneE⟩

/-- One step entry of the `summarizeWorkflowJob` loop (lines 1343–1346). -/
def workflowStepLine (step : Json) : String :=
  let stepData := ensureMapping (some step)
  "• " ++ esc (orStr (fget stepData "name") "step") ++ " (" ++
    esc (jsCoalesce (fget stepData "conclusion") (orStr (fget stepData "status") "")) ++ ")"

/-- `summarizeWorkflowJob` (lines 1324–1352). -/
def summarizeWorkflowJob (payload : Json) : String :=
  let data := ensureMapping (some payload)
  let action := orStr (fget data "action") ""
  let workflowJob := ensureMapping (fget data "workflow_job")
  let name := orStr (fget workflowJob "name") "job"
  let status := orStr (fget workflowJob "status") ""
  let conclusion := orStr (fget workflowJob "conclusion") ""
  let steps := jsArrayOf (fget workflowJob "steps")
  let lines := ["<b>Workflow job</b> <b>" ++ esc action ++ "</b> — <b>" ++ esc name ++ "</b>"]
  let lines := lines ++ (if jsTruthy status then ["status: <code>" ++ esc status ++ "</code>"] else [])
  let lines := lines ++
    (if jsTruthy conclusion then ["conclusion: <code>" ++ esc conclusion ++ "</code>"] else [])
  let lines := lines ++
    (if steps.length > 0 then
      (steps.take 5).map workflowStepLine ++
        (if steps.length > 5 then ["<i>+" ++ toString (steps.length - 5) ++ " more steps</i>"] else [])
     else [])
  joinLines lines

/-- `summarizeWorkflowRun` (lines 1354–1377). -/
def summarizeWorkflowRun (payload : Json) : String :=
  let data := ensureMapping (some payload)
  let action := orStr (fget data "action") ""
  let workflowRun := ensureMapping (fget data "workflow_run")
  let name := orStr (fget workflowRun "name") "workflow"
  let status := orStr (fget workflowRun "status") ""
  let conclusion := orStr (fget workflowRun "conclusion") ""
  let url := jsCoalesce (fget workflowRun "html_url") (fget workflowRun "url")
  let repoName := orDefault (repo data) "?"
  let lines :=
    ["<b>Workflow run</b> <code>" ++ escS repoName ++ "</code> <b>" ++ esc action ++
      "</b> — <b>" ++ esc name ++ "</b>"]
  let lines := lines ++ (if jsTruthy status then ["status: <code>" ++ esc status ++ "</code>"] else [])
  let lines := lines ++
    (if jsTruthy conclusion then ["conclusion: <code>" ++ esc conclusion ++ "</code>"] else [])
  let lines := lines ++ (if jsTruthy url then [link url (some "View run")] else [])
  joinLines lines

/-- `summarizeCheckRun` (lines 1379–1407). -/
def summarizeCheckRun (payload : Json) : String :=
  let data := ensureMapping (some payload)
  let action := orStr (fget data "action") ""
  let checkRun := ensureMapping (fget data "check_run")
  let name := orStr (fget checkRun "name") "check"
  let status := orStr (fget checkRun "status") ""
  let conclusion := orStr (fget checkRun "conclusion") ""
  let url := jsCoalesce (fget checkRun "html_url") (fget checkRun "details_url")
  let output := ensureMapping (fget checkRun "output")
  let summary := firstLine (fget output "summary") 200
  let text := firstLine (fget output "text") 200
  let lines := ["<b>Check run</b> <b>" ++ esc action ++ "</b> — <b>" ++ esc name ++ "</b>"]
  let lines := lines ++ (if jsTruthy status then ["status: <code>" ++ esc status ++ "</code>"] else [])
  let lines := lines ++
    (if jsTruthy conclusion then ["conclusion: <code>" ++ esc conclusion ++ "</code>"] else [])
  let lines := lines ++
    (if summary ≠ "" then [escS summary] else if text ≠ "" then [escS text] else [])
  let lines := lines ++ (if jsTruthy url then [link url (some "View check")] else [])
  joinLines lines

/-- `summarizeCheckSuite` (lines 1409–1427). -/
def summarizeCheckSuite (payload : Json) : String :=
  let data := ensureMapping (some payload)
  let action := orStr (fget data "action") ""
  let checkSuite := ensureMapping (fget data "check_suite")
  let status := orStr (fget checkSuite "status") ""
  let conclusion := orStr (fget checkSuite "conclusion") ""
  let url := jsCoalesce (fget checkSuite "html_url") (fget checkSuite "url")
  let lines := ["<b>Check suite</b> <b>" ++ esc action ++ "</b>"]
  let lines := lines ++ (if jsTruthy status then ["status: <code>" ++ esc status ++ "</code>"] else [])
  let lines := lines ++
    (if jsTruthy conclusion then ["conclusion: <code>" ++ esc conclusion ++ "</code>"] else [])
  let lines := lines ++ (if jsTruthy url then [link url (some "View suite")] else [])
  joinLines lines

/-- `summarizeCodeScanningAlert` (lines 1429–1446). -/
def summarizeCodeScanningAlert (payload : Json) : String :=
  let data := ensureMapping (some payload)
  let action := orStr (fget data "action") ""
  let alert := ensureMapping (fget data "alert")
  let rule := ensureMapping (fget alert "rule")
  let ruleId := jsCoalesce (fget rule "id") (orStr (fget rule "security_severity_level") "rule")
  let severity := jsCoalesce (fget alert "severity") (orStr (fget alert "security_severity_level") "")
  let url := orStr (fget alert "html_url") ""
  let lines :=
    ["<b>Code scanning alert</b> <b>" ++ esc action ++ "</b> — <b>" ++ esc ruleId ++ "</b>"]
  let lines := lines ++
    (if jsTruthy severity then ["severity: <code>" ++ esc severity ++ "</code>"] else [])
  let lines := lines ++ (if jsTruthy url then [link url (some "View alert")] else [])
  joinLines lines

/-- The `TypeError` raised by `commitId.slice(0, 7)` when `comment.commit_id`
is a truthy value with no `slice` method (line 1459). -/
def sliceErr : JsError :=
  ⟨"commitId.slice is not a function", "TypeError: commitId.slice is not a function"⟩

/-- `v.slice(0, n)`: defined on strings and arrays, a `TypeError` otherwise. -/
def jsSlice (j : Json) (n : Nat) : Except JsError Json :=
  match j with
  | .str s => .ok (.str (jsSliceTo s n))
  | .anil => .ok .anil
  | .acons _ _ => .ok (jArr (j.toList.take n))
  | _ => .error sliceErr

/-- `summarizeCommitComment` (lines 1448–1468).  `commitId.slice(0, 7)` runs
on any truthy `comment.commit_id` and throws when that value is neither a
string nor an array. -/
def summarizeCommitComment (payload : Json) : Except JsError String := do
  let data := ensureMapping (some payload)
  let comment := ensureMapping (fget data "comment")
  let repoName := orDefault (repo data) "?"
  let actorName := orDefault (actor data) UNKNOWN
  let body := firstLine (fget comment "body") 200
  let url := fget comment "html_url"
  let commitId := orStr (fget comment "commit_id") ""
  let shaLines ←
    if jsTruthy commitId then
      match commitId with
      | some j => do
        let sliced ← jsSlice j 7
        pure ["sha: <code>" ++ esc (some sliced) ++ "</code>"]
      | none => pure ([] : List String)
    else pure ([] : List String)
  let lines :=
    ["<b>Commit comment</b> on <code>" ++ escS repoName ++ "</code> by <b>" ++ escS actorName ++ "</b>"]
  let lines := lines ++ shaLines
  let lines := lines ++ (if body ≠ "" then [escS body] else [])
  let lines := lines ++ (if jsTruthy url then [link url (some "View comment")] else [])
  pure (joinLines lines)

/-- `summarizeDependabotAlert` (lines 1470–1487). -/
def summarizeDependabotAlert (payload : Json) : String :=
  let data := ensureMapping (some payload)
  let action := orStr (fget data "action") ""
  let alert := ensureMapping (fget data "alert")
  let dependency := ensureMapping (fget alert "dependency")
  let packageName :=
    jsCoalesce (optGet (fget dependency "package") "name") (some (.str "dependency"))
  let severity :=
    jsCoalesce (optGet (fget alert "security_vulnerability") "severity") (some (.str ""))
  let advisoryUrl :=
    jsCoalesce (optGet (fget alert "security_advisory") "ghsa_id") (some (.str ""))
  let lines :=
    ["<b>Dependabot alert</b> <b>" ++ esc action ++ "</b> — <b>" ++ esc packageName ++ "</b>"]
  let lines := lines ++
    (if jsTruthy severity then ["severity: <code>" ++ esc severity ++ "</code>"] else [])
  let lines := lines ++
    (if jsTruthy advisoryUrl then ["advisory: <code>" ++ esc advisoryUrl ++ "</code>"] else [])
  joinLines lines

/-- `summarizeLabel` (lines 1489–1498). -/
def summarizeLabel (payload : Json) : String :=
  genericActionSummary "Label" payload
    ⟨.strSpec "label", some [["name"], ["color"], ["id"]], none, .noneE⟩

/-- `summarizePackage` (lines 1500–1509). -/
def summarizePackage (payload : Json) : String :=
  genericActionSummary "Package" payload
    ⟨.strSpec "package", some [["name"], ["package_type"], ["id"]], none, .noneE⟩

/-- `summarizeRepositoryAdvisory` (lines 1511–1520). -/
def summarizeRepositoryAdvisory (payload : Json) : String :=
  genericActionSummary "Repository advisory" payload
    ⟨.strSpec "repository_advisory", some [["summary"], ["ghsa_id"], ["cve_id"]], none, .noneE⟩

/-- `summarizeCustomProperty` (lines 1522–1531). -/
def summarizeCustomProperty (payload : Json) : String :=
  genericActionSummary "Custom property" payload
    ⟨.strSpec "custom_property", some [["name"], ["full_name"], ["id"]], none, .noneE⟩

/-- `summarizeCustomPropertyValues` (lines 1533–1550). -/
def summarizeCustomPropertyValues (payload : Json) : String :=
  let data := ensureMapping (some payload)
  let repoName := orDefault (repo data) "?"
  let actorName := orDefault (actor data) UNKNOWN
  let newValues := jsArrayOf (fget data "new_property_values")
  let oldValues := jsArrayOf (fget data "old_property_values")
  let lines :=
    ["<b>Custom property values</b> updated in <code>" ++ escS repoName ++ "</code> by <b>" ++
      escS actorName ++ "</b>"]
  let lines := lines ++
    (if newValues.length > 0 then [toString newValues.length ++ " new values"] else [])
  let lines := lines ++
    (if oldValues.length > 0 then [toString oldValues.length ++ " previous values"] else [])
  joinLines lines

/-- `summarizeDeployKey` (lines 1552–1561). -/
def summarizeDeployKey (payload : Json) : String :=
  genericActionSummary "Deploy key" payload
    ⟨.strSpec "key", some [["title"], ["id"], ["fingerprint"]], none, .noneE⟩

/-- `summarizeGithubAppAuthorization` (lines 1563–1569). -/
def summarizeGithubAppAuthorization (payload : Json) : String :=
  let data := ensureMapping (some payload)
  let action := orStr (fget data "action") ""
  let user := ensureMapping (fget data "sender")
  let login := jsCoalesce (fget user "login") (orStr (fget user "name") "user")
  "<b>GitHub App authorization</b> <b>" ++ esc action ++ "</b> by <b>" ++ esc login ++ "</b>"

/-- `summarizeIssueDependencies` (lines 1571–1579). -/
def summarizeIssueDependencies (payload : Json) : String :=
  genericActionSummary "Issue dependencies" payload
    ⟨.keys ["dependent", "issue"], some [["title"], ["number"]], none, .noneE⟩

/-- `summarizeBranchProtectionConfiguration` (lines 1581–1583). -/
def summarizeBranchProtectionConfiguration (payload : Json) : String :=
  genericActionSummary "Branch protection configuration" payload ⟨.nullSpec, none, none, .noneE⟩

/-- `summarizeBranchProtectionRule` (lines 1585–1594). -/
def summarizeBranchProtectionRule (payload : Json) : String :=
  genericActionSummary "Branch protection rule" payload
    ⟨.strSpec "rule", some [["name"], ["pattern"], ["id"]], none, .noneE⟩

/-- The value of a nonempty digit run, or `none`. -/
def digitsValAux : Nat → List Char → Option Nat
  | acc, [] => some acc
  | acc, c :: rest => if c.isDigit then digitsValAux (acc * 10 + (c.toNat - 48)) rest else none

/-- The numeric value of a nonempty all-digit character list. -/
def digitsVal : List Char → Option Nat
  | [] => none
  | l => digitsValAux 0 l

/-- JavaScript `ToNumber` on a string, restricted to the integral fragment:
whitespace-only is `0`, an optionally signed digit run is its value,
everything else is `NaN` (`none`).  (JavaScript also accepts fractional,
exponential and hexadecimal literals; payload numbers are modelled integral
throughout, so those shapes do not arise.) -/
def strToNumber (s : String) : Option Int :=
  match (jsTrim s).data with
  | [] => some 0
  | '-' :: rest => (digitsVal rest).map (fun n => -(n : Int))
  | '+' :: rest => (digitsVal rest).map (fun n => (n : Int))
  | l => (digitsVal l).map (fun n => (n : Int))

/-- JavaScript `ToNumber`: `none` is `NaN`.  Objects and arrays coerce via
their string form. -/
def toNumber : JsVal → Option Int
  | none => none
  | some .null => some 0
  | some (.bool b) => some (cond b 1 0)
  | some (.num n) => some n
  | some (.str s) => strToNumber s
  | some j => strToNumber (jsString j)

/-- JavaScript `a * b` (with `NaN` as `none`). -/
def jsMul (a b : JsVal) : Option Int :=
  match toNumber a, toNumber b with
  | some x, some y => some (x * y)
  | _, _ => none

/-- How JavaScript prints the result of the multiplication. -/
def numToDisplay : Option Int → String
  | some n => toString n
  | none => "NaN"

/-- `summarizeMarketplacePurchase` (lines 1596–1612).  Note the source
interpolates `unitCount`, `unitPrice` and `total` into the plan line without
escaping. -/
def summarizeMarketplacePurchase (payload : Json) : String :=
  let data := ensureMapping (some payload)
  let action := orStr (fget data "action") ""
  let account := ensureMapping (optGet (fget data "marketplace_purchase") "account")
  let login := jsCoalesce (fget account "login") (orStr (fget account "name") "?")
  let plan := ensureMapping (optGet (fget data "marketplace_purchase") "plan")
  let planName := orStr (fget plan "name") "plan"
  let unitPrice := jsCoalesce (fget plan "price_per_unit") (some (.num 0))
  let unitCount := jsCoalesce (optGet (fget data "marketplace_purchase") "units") (some (.num 0))
  let total := jsMul unitPrice unitCount
  joinLines
    ["<b>Marketplace purchase</b> <b>" ++ esc action ++ "</b> by <b>" ++ esc login ++ "</b>",
     "plan: <code>" ++ esc planName ++ "</code> (" ++ jsStringV unitCount ++ " × " ++
       jsStringV unitPrice ++ ") = " ++ numToDisplay total]

/-- `summarizeMergeGroup` (lines 1614–1621). -/
def summarizeMergeGroup (payload : Json) : String :=
  let data := ensureMapping (some payload)
  let action := orStr (fget data "action") ""
  let mergeGroup := ensureMapping (fget data "merge_group")
  let headCommit := orStr (fget mergeGroup "head_commit") ""
  let headSha := match headCommit with
    | some (.str s) => jsSliceTo s 7
    | _ => ""
  "<b>Merge group</b> <b>" ++ esc action ++ "</b> head <code>" ++ escS headSha ++ "</code>"

/-- `summarizeMetaEvent` (lines 1623–1625). -/
def summarizeMetaEvent (payload : Json) : String := summarizeMeta payload

/-- `summarizeOrg` (lines 1627–1629). -/
def summarizeOrg (payload : Json) : String := summarizeOrganization payload

/-- `summarizeSponsorshipEvent` (lines 1631–1633). -/
def summarizeSponsorshipEvent (payload : Json) : String := summarizeSponsorship payload

/-- `summarizeWatchDefault` (lines 1635–1637). -/
def summarizeWatchDefault (payload : Json) (event : String) : String :=
  summarizeWatch payload event

/-- `summarizeWorkflow` (lines 1639–1641). -/
def summarizeWorkflow (payload : Json) : String := summarizeWorkflowRun payload

/-! ## Dispatch table and entry point (`github.ts` lines 1643–1761) -/

/-- The `Handler` type (line 6), with JavaScript exceptions explicit. -/
abbrev Handler := Json → String → Except JsError String

/-- Wrap a summarizer that cannot throw under JSON input. -/
def pureH (f : Json → String) : Handler := fun p _ => .ok (f p)

/-- Wrap an event-aware summarizer that cannot throw under JSON input. -/
def pureHE (f : Json → String → String) : Handler := fun p e => .ok (f p e)

/-- Wrap a summarizer with an explicit error side. -/
def rawH (f : Json → Except JsError String) : Handler := fun p _ => f p

/-- `EVENTS_METADATA` (lines 1643–1719), in source (insertion) order.  Every
entry of the source table carries a `handler` and none carries a `label`, so
the metadata reduces to the key/handler pairs. -/
def EVENTS_METADATA : List (String × Handler) :=
  [("branch_protection_configuration", pureH summarizeBranchProtectionConfiguration),
   ("branch_protection_rule", pureH summarizeBranchProtectionRule),
   ("check_run", pureH summarizeCheckRun),
   ("check_suite", pureH summarizeCheckSuite),
   ("code_scanning_alert", pureH summarizeCodeScanningAlert),
   ("commit_comment", rawH summarizeCommitComment),
   ("create", pureH summarizeCreate),
   ("custom_property", pureH summarizeCustomProperty),
   ("custom_property_values", pureH summarizeCustomPropertyValues),
   ("delete", pureH summarizeDelete),
   ("dependabot_alert", pureH summarizeDependabotAlert),
   ("deploy_key", pureH summarizeDeployKey),
   ("deployment", pureH summarizeDeployment),
   ("deployment_protection_rule", pureH summarizeDeploymentProtectionRule),
   ("deployment_review", pureH summarizeDeploymentReview),
   ("deployment_status", pureH summarizeDeploymentStatus),
   ("discussion", pureH summarizeDiscussion),
   ("discussion_comment", pureH summarizeDiscussionComment),
   ("fork", pureH summarizeFork),
   ("github_app_authorization", pureH summarizeGithubAppAuthorization),
   ("gollum", pureH summarizeGollum),
   ("installation", pureH summarizeInstallation),
   ("installation_repositories", pureH summarizeInstallationRepositories),
   ("installation_target", pureH summarizeInstallationTarget),
   ("issue_comment", pureH summarizeIssueComment),
   ("issue_dependencies", pureH summarizeIssueDependencies),
   ("issues", pureH summarizeIssues),
   ("label", pureH summarizeLabel),
   ("marketplace_purchase", pureH summarizeMarketplacePurchase),
   ("member", pureH summarizeMember),
   ("membership", pureH summarizeMembership),
   ("merge_group", pureH summarizeMergeGroup),
   ("meta", pureH summarizeMetaEvent),
   ("milestone", pureH summarizeMilestone),
   ("org_block", pureH summarizeOrgBlock),
   ("organization", pureH summarizeOrganization),
   ("package", pureH summarizePackage),
   ("page_build", pureH summarizePageBuild),
   ("personal_access_token_request", pureH summarizePersonalAccessTokenRequest),
   ("ping", pureH summarizePing),
   ("project", pureH summarizeProject),
   ("project_card", pureH summarizeProjectCard),
   ("project_column", pureH summarizeProjectColumn),
   ("projects_v2", pureH summarizeProjectsV2),
   ("projects_v2_item", pureH summarizeProjectsV2Item),
   ("projects_v2_status_update", pureH summarizeProjectsV2StatusUpdate),
   ("public", pureH summarizePublic),
   ("pull_request", pureH summarizePullRequest),
   ("pull_request_review", rawH summarizePullRequestReview),
   ("pull_request_review_comment", pureH summarizePullRequestReviewComment),
   ("pull_request_review_thread", pureH summarizePullRequestReviewThread),
   ("push", pureH summarizePush),
   ("registry_package", pureH summarizeRegistryPackage),
   ("release", pureH summarizeRelease),
   ("repository", pureH summarizeRepository),
   ("repository_advisory", pureH summarizeRepositoryAdvisory),
   ("repository_dispatch", pureH summarizeRepositoryDispatch),
   ("repository_import", pureH summarizeRepositoryImport),
   ("repository_ruleset", pureH summarizeRepositoryRuleset),
   ("repository_vulnerability_alert", pureH summarizeRepositoryVulnerabilityAlert),
   ("secret_scanning_alert", pureH summarizeSecretScanningAlert),
   ("secret_scanning_alert_location", pureH summarizeSecretScanningAlertLocation),
   ("secret_scanning_scan", pureH summarizeSecretScanningScan),
   ("security_advisory", pureH summarizeSecurityAdvisory),
   ("security_and_analysis", pureH summarizeSecurityAndAnalysis),
   ("sponsorship", pureH summarizeSponsorshipEvent),
   ("star", pureH summarizeStar),
   ("status", pureH summarizeStatus),
   ("sub_issues", pureH summarizeSubIssues),
   ("team", pureH summarizeTeam),
   ("team_add", pureH summarizeTeamAdd),
   ("watch", pureHE summarizeWatchDefault),
   ("workflow_dispatch", pureH summarizeWorkflowDispatch),
   ("workflow_job", pureH summarizeWorkflowJob),
   ("workflow_run", pureH summarizeWorkflowRun)]

/-- `HANDLERS` (lines 1721–1731): the loop copies every metadata entry with a
handler; since every entry has one, the table equals `EVENTS_METADATA` and the
`else` branch (prettified generic label) is dead code. -/
def HANDLERS : List (String × Handler) := EVENTS_METADATA

/-- `fallbackSummary(event, payload)` (lines 1733–1745).  `actorName` is
`actor(payload) || UNKNOWN`, hence never empty, so the `by` segment is always
appended. -/
def fallbackSummary (event : String) (payload : Json) : String :=
  let label := prettyLabel (if event = "" then "event" else event)
  let repoName := orDefault (repo payload) ""
  let actorName := orDefault (actor payload) UNKNOWN
  let line := "<b>" ++ escS label ++ "</b> event"
  let line := if repoName ≠ "" then line ++ " for <code>" ++ escS repoName ++ "</code>" else line
  let line := if actorName ≠ "" then line ++ " by <b>" ++ escS actorName ++ "</b>" else line
  line

/-- What the exported entry point hands back to its caller.  The TypeScript
annotation promises `string`, but the runtime can return a non-string (see
`summarizeGithubEvent`). -/
inductive JsOutcome where
  | str (s : String)
  | nonString (v : Json)
deriving DecidableEq

/-- `summarizeGithubEvent(event, payload)` (lines 1747–1759).

`HANDLERS` is a plain object literal, so `HANDLERS[eventKey]` falls through
to `Object.prototype` when `eventKey` is not an own key.  After lowercasing,
exactly two prototype member names can match:

* `"constructor"` — resolves to the `Object` function, which is truthy and
  callable; `handler(mappedPayload, eventKey)` is `Object(mappedPayload)`,
  which returns `mappedPayload` itself, so the entry point returns the
  (object) payload instead of a string and the `try` never fires;
* `"__proto__"` — resolves to `Object.prototype`, a truthy non-function, so
  the call throws a `TypeError` that the `try` converts to the fallback.

All other prototype member names (`toString`, `valueOf`, `hasOwnProperty`,
…) contain an uppercase letter and cannot survive `toLowerCase()`. -/
def summarizeGithubEvent (event : String) (payload : JsVal) : JsOutcome :=
  let eventKey := jsToLowerCase event
  let mappedPayload := ensureMapping payload
  match List.lookup eventKey HANDLERS with
  | some handler =>
    match handler mappedPayload eventKey with
    | .ok s => .str s
    | .error _ => .str (fallbackSummary eventKey mappedPayload)
  | none =>
    if eventKey = "constructor" then .nonString mappedPayload
    else .str (fallbackSummary eventKey mappedPayload)

/-- `EVENT_NAMES` (line 1761): `Object.keys(EVENTS_METADATA)`, the own keys
in insertion order. -/
def EVENT_NAMES : List String := EVENTS_METADATA.map Prod.fst

/-! ## Claim-side shapes and spec-side definitions

These definitions restate claim wordings (to be compared against the
source-derived functions above) or abstract one slot of a summarizer's
rendering for the claim theorems below. -/

/-- The actual shape of the fallback output: the bold pretty label plus
`" event"`, a repo segment only when a repository name is resolvable, and an
actor segment that is always present — showing the extracted actor, or the
literal `unknown` when extraction yields empty. -/
def fallbackShape (eventKey : String) (mapped : Json) : String :=
  "<b>" ++ escS (prettyLabel (if eventKey = "" then "event" else eventKey)) ++ "</b> event" ++
    (if repo mapped = "" then "" else " for <code>" ++ escS (repo mapped) ++ "</code>") ++
    (" by <b>" ++ escS (if actor mapped = "" then UNKNOWN else actor mapped) ++ "</b>")

/-- `summarizePullRequest` with the displayed action abstracted: everything
else of the rendering (lines 460–470) unchanged. -/
def pullRequestRender (payload : Json) (displayAction : String) : String :=
  let data := ensureMapping (some payload)
  let repoName := orDefault (repo data) "?"
  let pr := ensureMapping (fget data "pull_request")
  let number := jsCoalesce (fget pr "number") (orStr (fget data "number") "?")
  let title := orStr (fget pr "title") ""
  let actorName := orDefault (actor data) UNKNOWN
  let headRef := jsCoalesce (dig (some pr) ["head", "ref"]) (some (.str "?"))
  let baseRef := jsCoalesce (dig (some pr) ["base", "ref"]) (some (.str "?"))
  let url := fget pr "html_url"
  let lines :=
    ["<b>Pull request</b> <code>" ++ escS repoName ++ "</code> #" ++ esc number ++
      " <b>" ++ escS displayAction ++ "</b> by <b>" ++ escS actorName ++ "</b>"]
  let lines := lines ++ (if jsTruthy title then ["<b>" ++ esc title ++ "</b>"] else [])
  let lines := lines ++ [esc headRef ++ " → " ++ esc baseRef]
  let lines := lines ++ (if jsTruthy url then [link url (some "View pull request")] else [])
  joinLines lines

/-- The non-deleted rendering of `summarizePush` (lines 400–435) with the
commits section (blank separator, commit entries, overflow trailer)
abstracted; everything else unchanged. -/
def pushRenderNonDeleted (payload : Json) (commitsSection : List String) : String :=
  let data := ensureMapping (some payload)
  let repoName := orDefault (repo data) "?"
  let ref := orStr (fget data "ref") ""
  let isTag := match ref with
    | some (.str s) => strStartsWith s "refs/tags/"
    | _ => false
  let branch := pushBranchName ref
  let forced := jsTruthy (fget data "forced")
  let actorName :=
    let v := jsCoalesce (dig (some data) ["pusher", "name"]) (some (.str (actor data)))
    if jsTruthy v then v else some (.str UNKNOWN)
  let commits := jsArrayOf (fget data "commits")
  let compareUrl := strOr (fget data "compare") ""
  let targetLabel := if isTag then "tag" else "branch"
  let commitCount := commits.length
  let plural := if commitCount = 1 then "commit" else "commits"
  let head :=
    "<b>Push</b> to " ++ targetLabel ++ " <code>" ++ escS branch ++ "</code>" ++
      " in <code>" ++ escS repoName ++ "</code> by <b>" ++ esc actorName ++ "</b>" ++
      " (" ++ toString commitCount ++ " " ++ plural ++ ")"
  let head := if forced then head ++ " <i>(forced)</i>" else head
  joinLines ([head] ++ (if compareUrl ≠ "" then [linkS compareUrl (some "Compare")] else []) ++
    commitsSection)

/-- The suffix of a character list after its last occurrence of `sep` (the
whole list when `sep` does not occur). -/
def afterLastSep (sep : Char) : List Char → List Char
  | [] => []
  | c :: rest => if c = sep || rest.contains sep then afterLastSep sep rest else c :: rest

/-- The substring after the final `/` of a string (the whole string when no
`/` occurs) — the claim's description of the rendered branch name. -/
def afterLastSlash (s : String) : String := ⟨afterLastSep '/' s.data⟩

/-- `summarizePush` with the rendered branch/tag name abstracted: the full
rendering of lines 378–441 unchanged except for the `branch` slot. -/
def pushRenderWithBranch (payload : Json) (branch : String) : String :=
  let data := ensureMapping (some payload)
  let repoName := orDefault (repo data) "?"
  let repoUrl := dig (some data) ["repository", "html_url"]
  let ref := orStr (fget data "ref") ""
  let isTag := match ref with
    | some (.str s) => strStartsWith s "refs/tags/"
    | _ => false
  let deleted := jsTruthy (fget data "deleted")
  let forced := jsTruthy (fget data "forced")
  let actorName :=
    let v := jsCoalesce (dig (some data) ["pusher", "name"]) (some (.str (actor data)))
    if jsTruthy v then v else some (.str UNKNOWN)
  let commits := jsArrayOf (fget data "commits")
  let compareUrl := strOr (fget data "compare") ""
  let targetLabel := if isTag then "tag" else "branch"
  let lines :=
    if deleted then
      ["<b>Deleted</b> " ++ targetLabel ++ " <code>" ++ escS branch ++ "</code>" ++
        " from <code>" ++ escS repoName ++ "</code> by <b>" ++ esc actorName ++ "</b>"]
    else
      let commitCount := commits.length
      let plural := if commitCount = 1 then "commit" else "commits"
      let head :=
        "<b>Push</b> to " ++ targetLabel ++ " <code>" ++ escS branch ++ "</code>" ++
          " in <code>" ++ escS repoName ++ "</code> by <b>" ++ esc actorName ++ "</b>" ++
          " (" ++ toString commitCount ++ " " ++ plural ++ ")"
      let head := if forced then head ++ " <i>(forced)</i>" else head
      [head] ++
        (if compareUrl ≠ "" then [linkS compareUrl (some "Compare")] else []) ++
        (if commits.length > 0 then
          let overflow : Int := (commits.length : Int) - (MAX_COMMITS : Int)
          [""] ++ commitBlock (commits.take MAX_COMMITS) ++
            (if overflow > 0 then ["<i>+" ++ toString overflow ++ " more commits</i>"] else [])
         else [])
  let lines := lines ++
    (if deleted && jsTruthy repoUrl then [link repoUrl (some "Repository")] else [])
  joinLines lines

/-- Does `s` end with `sfx`? -/
def strEndsWith (s sfx : String) : Bool := sfx.data.isSuffixOf s.data

/-- The claim's "non-empty scalar value" test, made precise from the loop of
`extractSubject` (lines 86–99): the candidate's value is neither nullish nor
an object/array, and its trimmed stringification is non-empty. -/
def subjectUsable (data : Json) (candidate : List String) : Bool :=
  match dig (some data) candidate with
  | none => false
  | some .null => false
  | some v => !v.isObjectLike && (jsTrim (jsString v) != "")

/-- The candidate's trimmed stringified value. -/
def subjectText (data : Json) (candidate : List String) : String :=
  match dig (some data) candidate with
  | some v => jsTrim (jsString v)
  | none => ""

/-- The claim's decoration of a selected value: the `#` prefix for a
`number` field (unless one is already present), then the 160-cap. -/
def decorateSubject (candidate : List String) (text : String) : String :=
  truncate160
    (if candidate.getLast? = some "number" && text ≠ "" && !hashStart text
     then "#" ++ text else text)

/-- The claim's selection rule, written from its words: the first usable
candidate's decorated text, the empty string when none is usable. -/
def specSubjectName (data : Json) : List (List String) → String
  | [] => ""
  | c :: rest =>
    if subjectUsable data c then decorateSubject c (subjectText data c)
    else specSubjectName data rest

/-- A 161-character sample string (for exercising the 160-cap). -/
def longSubjectSample : String := "aaaaaaaaaaaaaaaaaaaaaaaaaaaaaaaaaaaaaaaaaaaaaaaaaaaaaaaaaaaaaaaaaaaaaaaaaaaaaaaaaaaaaaaaaaaaaaaaaaaaaaaaaaaaaaaaaaaaaaaaaaaaaaaaaaaaaaaaaaaaaaaaaaaaaaaaaaaaaaaaa"

/-! ## Shared lemmas -/

theorem string_eq_empty_iff (s : String) : s = "" ↔ s.data = [] := by
  constructor
  · intro h; rw [h]
  · intro h; cases s; simp_all

theorem char_toNat_valid (c : Char) : Nat.isValidChar c.toNat := c.valid

theorem char_toNat_ofNat (n : Nat) (h : Nat.isValidChar n) : (Char.ofNat n).toNat = n := by
  unfold Char.ofNat
  rw [dif_pos h]
  rfl

theorem lowerCharNat_valid (n : Nat) (h : Nat.isValidChar n) :
    Nat.isValidChar (lowerCharNat n) := by
  unfold lowerCharNat
  split
  · exact Or.inl (by omega)
  · exact h

theorem lowerCharNat_idem (n : Nat) : lowerCharNat (lowerCharNat n) = lowerCharNat n := by
  unfold lowerCharNat
  by_cases h : 65 ≤ n ∧ n ≤ 90
  · rw [if_pos h, if_neg (by omega)]
  · rw [if_neg h, if_neg h]

theorem lowerChar_idem (c : Char) : lowerChar (lowerChar c) = lowerChar c := by
  unfold lowerChar
  rw [char_toNat_ofNat _ (lowerCharNat_valid _ (char_toNat_valid c)), lowerCharNat_idem]

theorem jsToLowerCase_idem (s : String) : jsToLowerCase (jsToLowerCase s) = jsToLowerCase s := by
  unfold jsToLowerCase
  simp [List.map_map, Function.comp_def, lowerChar_idem]

/-! ## Claim C1 -/

/-- Claim C1 (code bug): the claim states that for every event-type string
and every JSON payload the entry point returns a non-empty string and never
throws.  The code violates it: `HANDLERS` is a plain object literal, so
`HANDLERS["constructor"]` resolves (through the prototype chain) to the
`Object` function, which is truthy; the entry point calls it, and
`Object(mappedPayload)` returns the mapped payload object itself, so
`summarizeGithubEvent("constructor", p)` (and, by lowercasing,
`"CONSTRUCTOR"`, …) returns a non-string object in violation of the
declared `: string` return type.  This theorem evaluates the model at the
failing input. -/
theorem c1_constructor_returns_payload_object :
    summarizeGithubEvent "constructor" (some (jObj [("a", .num 1)])) =
      .nonString (jObj [("a", .num 1)]) ∧
    summarizeGithubEvent "CONSTRUCTOR" none = .nonString .onil ∧
    (∀ s : String, summarizeGithubEvent "constructor" (some (jObj [("a", .num 1)])) ≠ .str s) := by
  refine ⟨by decide, by decide, ?_⟩
  intro s h
  rw [show summarizeGithubEvent "constructor" (some (jObj [("a", .num 1)])) =
      .nonString (jObj [("a", .num 1)]) from by decide] at h
  exact JsOutcome.noConfusion h

/-! ## Claim C2 -/

/-- Claim C2 (code bug): the claim states that payload-derived display text
(including counts and prices) always appears HTML-escaped.
`summarizeMarketplacePurchase` interpolates `unitCount`, `unitPrice` and
`total` into the plan line without `esc`, so a string `units` field flows
into the output verbatim: with `units = "<script>"` the returned summary
contains the raw `<script>` (and no `&lt;script&gt;`). -/
theorem c2_marketplace_purchase_unescaped :
    summarizeGithubEvent "marketplace_purchase"
        (some (jObj [("marketplace_purchase", jObj [("units", .str "<script>")])])) =
      .str ("<b>Marketplace purchase</b> <b></b> by <b>?</b>\n" ++
        "plan: <code>plan</code> (<script> × 0) = NaN") := by
  decide

/-! ## Claim C8 -/

/-- Claim C8 (confirmed): `EVENT_NAMES` is exactly the key list of the
dispatch table (`HANDLERS` copies every `EVENTS_METADATA` entry, and
`EVENT_NAMES` is `Object.keys` of the same table), and the key list is
strictly ascending in the usual string order. -/
theorem c8_event_names_sorted_keys :
    EVENT_NAMES = HANDLERS.map Prod.fst ∧ List.Sorted (· < ·) EVENT_NAMES := by
  refine ⟨rfl, ?_⟩
  have h : List.Pairwise (fun a b : String => a.data < b.data) EVENT_NAMES := by decide
  exact h.imp (fun hab => String.lt_iff_toList_lt.mpr hab)

/-! ## Claim C3 -/


theorem orDefault_empty (s : String) : orDefault s "" = s := by
  unfold orDefault
  split
  · simp_all
  · rfl

theorem fallbackSummary_shape (k : String) (p : Json) :
    fallbackSummary k p = fallbackShape k p := by
  unfold fallbackSummary fallbackShape
  rw [orDefault_empty]
  by_cases hr : repo p = "" <;> by_cases ha : actor p = "" <;>
    simp [hr, ha, orDefault, UNKNOWN, String.append_assoc] <;> rfl

/-- Claim C3 (corrected): for an unhandled event type the claim predicts the
`" by <b>{actor}</b>"` segment only when an actor is resolvable; in the code
`actorName` is `actor(payload) || "unknown"`, which is never empty, so the
guard `if (actorName)` always passes and the segment is always appended
(with the literal `unknown` when extraction yields empty).  Concretely, at
an unknown event with an empty payload, actor extraction yields `""` yet the
output still ends in `by <b>unknown</b>`. -/
theorem c3_counterexample_actor_segment :
    actor .onil = "" ∧
    summarizeGithubEvent "totally_unknown_event" none =
      .str "<b>Totally Unknown Event</b> event by <b>unknown</b>" := by
  constructor
  · decide
  · decide

/-- Claim C3 as amended: for every event type whose lowercased key has no
registered handler and is not the prototype-colliding key `"constructor"`,
and likewise whenever a registered handler throws, the output is
`"<b>{PrettyLabel}</b> event"`, plus `" for <code>{repo}</code>"` only if a
repository name is resolvable, plus `" by <b>{actor}</b>"` always — with the
literal `unknown` as actor when extraction yields empty. -/
theorem c3_fallback_shape (event : String) (payload : JsVal) :
    (List.lookup (jsToLowerCase event) HANDLERS = none →
      jsToLowerCase event ≠ "constructor" →
      summarizeGithubEvent event payload =
        .str (fallbackShape (jsToLowerCase event) (ensureMapping payload))) ∧
    (∀ (h : Handler) (e : JsError),
      List.lookup (jsToLowerCase event) HANDLERS = some h →
      h (ensureMapping payload) (jsToLowerCase event) = .error e →
      summarizeGithubEvent event payload =
        .str (fallbackShape (jsToLowerCase event) (ensureMapping payload))) := by
  constructor
  · intro h1 h2
    simp only [summarizeGithubEvent, h1, if_neg h2, fallbackSummary_shape]
  · intro h e h1 h2
    simp only [summarizeGithubEvent, h1, h2, fallbackSummary_shape]

/-- Witness for `c3_fallback_shape`: the unhandled-event branch at a concrete
unknown event name, and the handler-failure branch at a `commit_comment`
payload whose `commit_id` is `true` (so `commitId.slice` throws). -/
theorem c3_fallback_shape_witness :
    summarizeGithubEvent "zzz_event" none =
      .str (fallbackShape (jsToLowerCase "zzz_event") (ensureMapping none)) ∧
    summarizeGithubEvent "commit_comment"
        (some (jObj [("comment", jObj [("commit_id", .bool true)])])) =
      .str (fallbackShape (jsToLowerCase "commit_comment")
        (ensureMapping (some (jObj [("comment", jObj [("commit_id", .bool true)])])))) :=
  ⟨(c3_fallback_shape "zzz_event" none).1 rfl (by decide),
   (c3_fallback_shape "commit_comment" _).2 (rawH summarizeCommitComment) sliceErr rfl rfl⟩

/-! ## Claim C4 -/

theorem esc_str (s : String) : esc (some (.str s)) = escS s := rfl


/-- Claim C4 (confirmed): a `pull_request` payload with `action === "closed"`
and a truthy `pull_request.merged` renders the headline action as `merged`;
with `merged` falsy (false or absent) the headline keeps `closed`. -/
theorem c4_closed_merged_renders_merged (payload : Json) :
    (orStr (fget (ensureMapping (some payload)) "action") "" = some (.str "closed") →
     jsTruthy (fget (ensureMapping (fget (ensureMapping (some payload)) "pull_request")) "merged")
       = true →
     summarizePullRequest payload = pullRequestRender payload "merged") ∧
    (orStr (fget (ensureMapping (some payload)) "action") "" = some (.str "closed") →
     jsTruthy (fget (ensureMapping (fget (ensureMapping (some payload)) "pull_request")) "merged")
       = false →
     summarizePullRequest payload = pullRequestRender payload "closed") := by
  constructor
  · intro h1 h2
    simp only [summarizePullRequest, pullRequestRender]
    rw [h1, h2]
    rfl
  · intro h1 h2
    simp only [summarizePullRequest, pullRequestRender]
    rw [h1, h2]
    rfl

/-- Witness for `c4_closed_merged_renders_merged`: a closed-and-merged pull
request renders `merged`, a closed-but-unmerged one renders `closed`. -/
theorem c4_closed_merged_renders_merged_witness :
    summarizePullRequest
        (jObj [("action", .str "closed"),
               ("pull_request", jObj [("number", .num 7), ("merged", .bool true)])]) =
      pullRequestRender
        (jObj [("action", .str "closed"),
               ("pull_request", jObj [("number", .num 7), ("merged", .bool true)])]) "merged" ∧
    summarizePullRequest
        (jObj [("action", .str "closed"), ("pull_request", jObj [("number", .num 8)])]) =
      pullRequestRender
        (jObj [("action", .str "closed"), ("pull_request", jObj [("number", .num 8)])]) "closed" :=
  ⟨(c4_closed_merged_renders_merged _).1 rfl rfl,
   (c4_closed_merged_renders_merged _).2 rfl rfl⟩

/-! ## Claim C5 -/

theorem toList_jArr (l : List Json) : (jArr l).toList = l := by
  induction l with
  | nil => rfl
  | cons x xs ih =>
    show x :: (jArr xs).toList = x :: xs
    rw [ih]

theorem jsArrayOf_jArr (l : List Json) : jsArrayOf (some (jArr l)) = l := by
  cases l with
  | nil => rfl
  | cons x xs =>
    show (jArr (x :: xs)).toList = x :: xs
    exact toList_jArr _

theorem int_toString_natCast (m : Nat) : toString ((m : Nat) : Int) = toString m := rfl


/-- Claim C5 (confirmed): on a non-deleted push whose `commits` array has
length `L > 5`, exactly the first 5 commits are rendered (the `commitBlock`
of `l.take 5`, whose length is 5) followed by the `<i>+N more commits</i>`
trailer with `N = L - 5`; with `L ≤ 5` all `L` commits are rendered and no
trailer appears. -/
theorem c5_push_commit_truncation (payload : Json) (l : List Json) :
    jsTruthy (fget (ensureMapping (some payload)) "deleted") = false →
    fget (ensureMapping (some payload)) "commits" = some (jArr l) →
    ((5 < l.length →
        summarizePush payload =
          pushRenderNonDeleted payload
            ([""] ++ commitBlock (l.take 5) ++
              ["<i>+" ++ toString (l.length - 5) ++ " more commits</i>"]) ∧
        (l.take 5).length = 5) ∧
     (l.length ≤ 5 →
        summarizePush payload =
          pushRenderNonDeleted payload
            (if l.isEmpty then [] else [""] ++ commitBlock l))) := by
  intro hdel hc
  constructor
  · intro h5
    constructor
    · simp only [summarizePush, pushRenderNonDeleted, hc, hdel, jsArrayOf_jArr,
        MAX_COMMITS, Bool.false_eq_true, if_false, Bool.false_and, List.append_nil]
      rw [if_pos (by omega : 0 < l.length),
        if_pos (by omega : (0 : Int) < (l.length : Int) - ((5 : Nat) : Int)),
        show ((l.length : Int) - ((5 : Nat) : Int)) = ((l.length - 5 : Nat) : Int) by omega,
        int_toString_natCast]
    · simp [List.length_take]; omega
  · intro h5
    simp only [summarizePush, pushRenderNonDeleted, hc, hdel, jsArrayOf_jArr,
      MAX_COMMITS, Bool.false_eq_true, if_false, Bool.false_and, List.append_nil]
    by_cases hl : l = []
    · subst hl
      rfl
    · have hpos : 0 < l.length := List.length_pos.mpr hl
      have hie : l.isEmpty = false := by
        cases l with
        | nil => exact absurd rfl hl
        | cons a t => rfl
      rw [if_pos hpos,
        if_neg (by omega : ¬ ((0 : Int) < (l.length : Int) - ((5 : Nat) : Int))),
        hie, List.append_nil, List.take_of_length_le h5]
      simp

/-- Witness for `c5_push_commit_truncation`: a 7-commit push renders 5
entries plus a `+2 more commits` trailer; a 2-commit push renders both and
no trailer. -/
theorem c5_push_commit_truncation_witness :
    (summarizePush (jObj [("commits", jArr [.num 1, .num 2, .num 3, .num 4, .num 5, .num 6, .num 7])]) =
        pushRenderNonDeleted
          (jObj [("commits", jArr [.num 1, .num 2, .num 3, .num 4, .num 5, .num 6, .num 7])])
          ([""] ++ commitBlock (([.num 1, .num 2, .num 3, .num 4, .num 5, .num 6, .num 7] : List Json).take 5) ++
            ["<i>+" ++ toString (([.num 1, .num 2, .num 3, .num 4, .num 5, .num 6, .num 7] : List Json).length - 5) ++
              " more commits</i>"]) ∧
      (([.num 1, .num 2, .num 3, .num 4, .num 5, .num 6, .num 7] : List Json).take 5).length = 5) ∧
    summarizePush (jObj [("commits", jArr [.num 1, .num 2])]) =
      pushRenderNonDeleted (jObj [("commits", jArr [.num 1, .num 2])])
        (if ([.num 1, .num 2] : List Json).isEmpty then []
         else [""] ++ commitBlock ([.num 1, .num 2] : List Json)) :=
  ⟨(c5_push_commit_truncation
      (jObj [("commits", jArr [.num 1, .num 2, .num 3, .num 4, .num 5, .num 6, .num 7])])
      [.num 1, .num 2, .num 3, .num 4, .num 5, .num 6, .num 7] rfl rfl).1 (by decide),
   (c5_push_commit_truncation (jObj [("commits", jArr [.num 1, .num 2])])
      [.num 1, .num 2] rfl rfl).2 (by decide)⟩

/-! ## Claim C6 -/

/-- Claim C6 (confirmed): the entry point lowercases its event-type argument
before dispatching, so it is case-insensitive: the result at `event` equals
the result at `toLowerCase(event)`. -/
theorem c6_event_type_case_insensitive (event : String) (payload : JsVal) :
    summarizeGithubEvent event payload = summarizeGithubEvent (jsToLowerCase event) payload := by
  unfold summarizeGithubEvent
  rw [jsToLowerCase_idem]

/-! ## Claim C7 -/

theorem subjectNameLoop_eq_spec (data : Json) :
    ∀ fields, subjectNameLoop data fields = specSubjectName data fields := by
  intro fields
  induction fields with
  | nil => rfl
  | cons c rest ih =>
    cases hd : dig (some data) c with
    | none => simp [subjectNameLoop, specSubjectName, subjectUsable, hd, ih]
    | some j =>
      cases j <;>
        simp [subjectNameLoop, specSubjectName, subjectUsable, subjectText,
          decorateSubject, hd, ih, Json.isObjectLike]

theorem length_jsSliceTo (s : String) (n : Nat) :
    (jsSliceTo s n).length = min n s.length := by
  show (s.data.take n).length = min n s.length
  exact List.length_take n s.data

theorem truncate160_length_le (text : String) : (truncate160 text).length ≤ 160 := by
  unfold truncate160
  split
  · rename_i h
    simp only [String.length_append, length_jsSliceTo]
    have h157 : min 157 text.length = 157 := by omega
    have h3 : ("..." : String).length = 3 := rfl
    omega
  · omega

theorem truncate160_of_long (text : String) (h : 160 < text.length) :
    (truncate160 text).length = 160 ∧ strEndsWith (truncate160 text) "..." = true := by
  unfold truncate160
  rw [if_pos (by omega)]
  constructor
  · simp only [String.length_append, length_jsSliceTo]
    have h157 : min 157 text.length = 157 := by omega
    have h3 : ("..." : String).length = 3 := rfl
    omega
  · show ("...".data.isSuffixOf _) = true
    rw [List.isSuffixOf_iff_suffix]
    show "...".data <:+ (jsSliceTo text 157).data ++ "...".data
    exact List.suffix_append _ _

theorem specSubjectName_length_le (data : Json) :
    ∀ fields, (specSubjectName data fields).length ≤ 160 := by
  intro fields
  induction fields with
  | nil => exact Nat.zero_le _
  | cons c rest ih =>
    simp only [specSubjectName]
    split
    · exact truncate160_length_le _
    · exact ih

theorem extractSubject_name_length_le (data : Json) (fields : Option (List (List String))) :
    (extractSubject data fields).name.length ≤ 160 := by
  unfold extractSubject
  split <;>
    first
      | (rw [subjectNameLoop_eq_spec]; exact specSubjectName_length_le _ _)
      | exact Nat.zero_le _
      | exact truncate160_length_le _

theorem extractSubject_scalar (d : Json) (fields : Option (List (List String)))
    (hobj : d.isObjectLike = false) (hnull : d ≠ Json.null) :
    extractSubject d fields = ⟨truncate160 (jsString d), ""⟩ := by
  unfold extractSubject
  split <;>
    first
      | rfl
      | exact absurd rfl hnull
      | simp_all [Json.isObjectLike]

theorem specSubjectName_append_unusable (data : Json) :
    ∀ l₁ l₂, (∀ c ∈ l₁, subjectUsable data c = false) →
      specSubjectName data (l₁ ++ l₂) = specSubjectName data l₂ := by
  intro l₁
  induction l₁ with
  | nil => intro l₂ _; rfl
  | cons c rest ih =>
    intro l₂ h
    simp only [List.cons_append, specSubjectName, h c (by simp), Bool.false_eq_true,
      if_false]
    exact ih l₂ (fun x hx => h x (by simp [hx]))

theorem subjectUsable_text_ne (data : Json) (c : List String)
    (h : subjectUsable data c = true) : subjectText data c ≠ "" := by
  unfold subjectUsable at h
  unfold subjectText
  cases hd : dig (some data) c with
  | none => rw [hd] at h; exact absurd h (by decide)
  | some j =>
    rw [hd] at h
    cases j <;> simp_all [Json.isObjectLike]

theorem extractSubject_name_of_mapping (data : Json) (fields : Option (List (List String)))
    (h : data.isMapping = true) :
    (extractSubject data fields).name =
      specSubjectName data (fields.getD SUBJECT_NAME_FIELDS) := by
  cases data <;> simp_all [Json.isMapping, extractSubject, subjectNameLoop_eq_spec]

/-- Claim C7: the claim describes the selected name as the candidate's value
(truncated), but the loop trims the stringified value before both the
emptiness test and the rendering: a padded `title` renders trimmed, and a
whitespace-only `title` is skipped in favour of the next candidate. -/
theorem c7_counterexample_untrimmed_title :
    (extractSubject (jObj [("title", Json.str " padded ")]) none).name = "padded" ∧
    "padded" ≠ " padded " ∧
    (extractSubject (jObj [("title", Json.str " "), ("name", Json.str "x")]) none).name
      = "x" := by
  decide

/-- Claim C7 as amended: for every non-array object input, the name is the
first candidate of the ordered field list whose value is non-nullish,
non-object, and has a non-empty **trimmed** stringification — rendered as
that trimmed string; a value matched under `number` is prefixed with `#`
unless it already starts with one; the name never exceeds 160 characters,
and a value longer than 160 is capped at exactly 160 ending in `...`; a
scalar (non-object, non-nullish) input is stringified with the same
truncation and an empty url. -/
theorem c7_subject_extraction :
    (∀ (data : Json) (fields : Option (List (List String))), data.isMapping = true →
       (extractSubject data fields).name =
         specSubjectName data (fields.getD SUBJECT_NAME_FIELDS)) ∧
    (∀ data : Json, data.isMapping = true →
       (∀ c ∈ SUBJECT_NAME_FIELDS.dropLast, subjectUsable data c = false) →
       subjectUsable data ["number"] = true →
       hashStart (subjectText data ["number"]) = false →
       (extractSubject data none).name =
         truncate160 ("#" ++ subjectText data ["number"])) ∧
    (∀ (data : Json) (fields : Option (List (List String))),
       (extractSubject data fields).name.length ≤ 160) ∧
    (∀ text : String, 160 < text.length →
       (truncate160 text).length = 160 ∧ strEndsWith (truncate160 text) "..." = true) ∧
    (∀ (d : Json) (fields : Option (List (List String))),
       d.isObjectLike = false → d ≠ Json.null →
       extractSubject d fields = ⟨truncate160 (jsString d), ""⟩) := by
  refine ⟨extractSubject_name_of_mapping, ?_,
    extractSubject_name_length_le, truncate160_of_long, extractSubject_scalar⟩
  intro data hmap hearlier hnum hhash
  rw [extractSubject_name_of_mapping data none hmap]
  show specSubjectName data SUBJECT_NAME_FIELDS = _
  have hsplit : SUBJECT_NAME_FIELDS = SUBJECT_NAME_FIELDS.dropLast ++ [["number"]] := rfl
  rw [hsplit, specSubjectName_append_unusable data _ _ hearlier]
  have ht := subjectUsable_text_ne data ["number"] hnum
  simp [specSubjectName, hnum, decorateSubject, ht, hhash]

set_option maxRecDepth 4000 in
/-- Witness for `c7_subject_extraction`: a `name`-selected object, a
`number`-selected object, a scalar input, and the 161-character sample. -/
theorem c7_subject_extraction_witness :
    (extractSubject (jObj [("name", Json.str "x")]) none).name =
      specSubjectName (jObj [("name", Json.str "x")]) SUBJECT_NAME_FIELDS ∧
    (extractSubject (jObj [("number", Json.num 42)]) none).name =
      truncate160 ("#" ++ subjectText (jObj [("number", Json.num 42)]) ["number"]) ∧
    (extractSubject (Json.num 7) none).name.length ≤ 160 ∧
    160 < longSubjectSample.length ∧
    (truncate160 longSubjectSample).length = 160 ∧
    strEndsWith (truncate160 longSubjectSample) "..." = true ∧
    extractSubject (Json.num 7) none = ⟨truncate160 (jsString (Json.num 7)), ""⟩ :=
  ⟨c7_subject_extraction.1 (jObj [("name", Json.str "x")]) none rfl,
   c7_subject_extraction.2.1 (jObj [("number", Json.num 42)]) rfl (by decide) rfl rfl,
   c7_subject_extraction.2.2.1 (Json.num 7) none,
   by decide,
   (c7_subject_extraction.2.2.2.1 longSubjectSample (by decide)).1,
   (c7_subject_extraction.2.2.2.1 longSubjectSample (by decide)).2,
   c7_subject_extraction.2.2.2.2 (Json.num 7) none rfl (by decide)⟩

/-! ## Claim C9 -/

theorem append_ne_empty_left (a b : String) (h : a ≠ "") : a ++ b ≠ "" := by
  intro hh
  apply h
  have hd := congrArg String.data hh
  rw [String.data_append] at hd
  rw [string_eq_empty_iff]
  exact (List.append_eq_nil.mp hd).1

theorem joinLines_concat (a : String) (t : List String) (x : String) :
    joinLines ((a :: t) ++ [x]) = joinLines (a :: t) ++ "\n" ++ x := by
  show (t ++ [x]).foldl (fun acc y => acc ++ "\n" ++ y) a = _
  rw [List.foldl_append]
  rfl

theorem strStartsWith_iff (s p : String) : strStartsWith s p = true ↔ p.data <+: s.data :=
  List.isPrefixOf_iff_prefix

theorem prefix_append_step {α : Type} {p l : List α} (r : List α) (h : p <+: l) :
    p <+: l ++ r :=
  h.trans (List.prefix_append l r)

theorem strStartsWith_mono (s x p : String) (h : strStartsWith s p = true) :
    strStartsWith (s ++ x) p = true := by
  rw [strStartsWith_iff] at h ⊢
  rw [String.data_append]
  exact prefix_append_step _ h

/-- The main line is the bold label followed by four independent optional
chunks (each empty exactly when its guard fails). -/
theorem formatMainLine_eq (label action subjectName repoName actorName : String) :
    formatMainLine label action subjectName repoName actorName =
      ("<b>" ++ escS label ++ "</b>") ++
        ((if subjectName ≠ "" then ": " ++ escS subjectName else "") ++
         ((if action ≠ "" then " <b>" ++ escS action ++ "</b>" else "") ++
          ((if repoName ≠ "" then " in <code>" ++ escS repoName ++ "</code>" else "") ++
           (if actorName ≠ "" && actorName ≠ UNKNOWN
            then " by <b>" ++ escS actorName ++ "</b>" else "")))) := by
  simp only [formatMainLine]
  repeat' split
  all_goals simp [String.append_assoc, String.append_empty, String.empty_append]
  all_goals rfl

theorem formatMainLine_startsWith (label action subjectName repoName actorName : String) :
    strStartsWith (formatMainLine label action subjectName repoName actorName)
      ("<b>" ++ escS label ++ "</b>") = true := by
  rw [strStartsWith_iff, formatMainLine_eq, String.data_append]
  exact List.prefix_append _ _

theorem joinLines_startsWith (t : List String) (acc p : String)
    (h : strStartsWith acc p = true) :
    strStartsWith (t.foldl (fun acc x => acc ++ "\n" ++ x) acc) p = true := by
  induction t generalizing acc with
  | nil => exact h
  | cons y ys ih => exact ih _ (strStartsWith_mono _ _ _ (strStartsWith_mono _ _ _ h))

/-- Claim C9 (confirmed): for every payload and every function-valued `extra`
option whose invocation throws, `genericActionSummary` does not propagate the
error: the output equals the output with no `extra` at all followed by exactly
one final line `<i>extra error: ...</i>` carrying the HTML-escaped error
message, and it still starts with the headline's bold label. -/
theorem c9_extra_error_rendered_inline (label : String) (payload : Json) (sub : SubjSpec)
    (sf uf : Option (List (List String))) (f : Json → Except JsError ExtraValue) (e : JsError) :
    f (ensureMapping (some payload)) = .error e →
    (genericActionSummary label payload ⟨sub, sf, uf, .funE f⟩ =
       genericActionSummary label payload ⟨sub, sf, uf, .noneE⟩ ++ "\n" ++
         ("<i>extra error: " ++ escS (errText e) ++ "</i>") ∧
     strStartsWith (genericActionSummary label payload ⟨sub, sf, uf, .funE f⟩)
       ("<b>" ++ escS label ++ "</b>") = true) := by
  intro hf
  have hcall : callableExtra (.funE f) (ensureMapping (some payload)) =
      ["<i>extra error: " ++ escS (errText e) ++ "</i>"] := by
    simp [callableExtra, hf]
  have herr : ("<i>extra error: " ++ escS (errText e) ++ "</i>" : String) ≠ "" :=
    append_ne_empty_left _ _ (append_ne_empty_left _ _ (by decide))
  constructor
  · simp only [genericActionSummary, hcall, List.singleton_append]
    rw [show callableExtra Extra.noneE (ensureMapping (some payload)) = [] from rfl]
    simp only [List.filter_nil, List.append_nil, List.filter_cons, decide_eq_true_eq]
    rw [if_pos herr, joinLines_concat]
  · simp only [genericActionSummary, List.singleton_append]
    exact joinLines_startsWith _ _ _ (formatMainLine_startsWith _ _ _ _ _)

/-- Witness for `c9_extra_error_rendered_inline`: a resolver that always
throws `boom` on an `issues`-style payload. -/
theorem c9_extra_error_rendered_inline_witness :
    (fun _ : Json => (Except.error ⟨"boom", "Error: boom"⟩ : Except JsError ExtraValue))
        (ensureMapping (some (jObj [("action", Json.str "opened")]))) =
      Except.error ⟨"boom", "Error: boom"⟩ ∧
    (genericActionSummary "Issues" (jObj [("action", Json.str "opened")])
        ⟨SubjSpec.nullSpec, none, none,
         Extra.funE (fun _ => Except.error ⟨"boom", "Error: boom"⟩)⟩ =
      genericActionSummary "Issues" (jObj [("action", Json.str "opened")])
          ⟨SubjSpec.nullSpec, none, none, Extra.noneE⟩ ++ "\n" ++
        ("<i>extra error: " ++ escS (errText ⟨"boom", "Error: boom"⟩) ++ "</i>") ∧
     strStartsWith
        (genericActionSummary "Issues" (jObj [("action", Json.str "opened")])
          ⟨SubjSpec.nullSpec, none, none,
           Extra.funE (fun _ => Except.error ⟨"boom", "Error: boom"⟩)⟩)
        ("<b>" ++ escS "Issues" ++ "</b>") = true) :=
  ⟨rfl,
   c9_extra_error_rendered_inline "Issues" (jObj [("action", Json.str "opened")])
     SubjSpec.nullSpec none none (fun _ => Except.error ⟨"boom", "Error: boom"⟩)
     ⟨"boom", "Error: boom"⟩ rfl⟩

/-! ## Claim C10 -/



theorem splitCharList_ne_nil (sep : Char) : ∀ l : List Char, splitCharList sep l ≠ [] := by
  intro l
  induction l with
  | nil => simp [splitCharList]
  | cons c rest ih =>
    simp only [splitCharList]
    split
    · simp
    · cases h : splitCharList sep rest with
      | nil => exact absurd h ih
      | cons seg segs => simp [h]

theorem splitCharList_of_not_contains (sep : Char) :
    ∀ l : List Char, l.contains sep = false → splitCharList sep l = [l] := by
  intro l
  induction l with
  | nil => intro _; rfl
  | cons c rest ih =>
    intro h
    simp only [List.contains_cons, Bool.or_eq_false_iff, beq_eq_false_iff_ne] at h
    simp only [splitCharList]
    rw [if_neg (fun hh => h.1 hh.symm), ih h.2]

theorem splitCharList_singleton (sep : Char) :
    ∀ (l x : List Char), splitCharList sep l = [x] → x = l ∧ l.contains sep = false := by
  intro l
  induction l with
  | nil =>
    intro x h
    simp [splitCharList] at h
    simp [h]
  | cons c rest ih =>
    intro x h
    simp only [splitCharList] at h
    by_cases hc : c = sep
    · rw [if_pos hc] at h
      cases hr : splitCharList sep rest with
      | nil => exact absurd hr (splitCharList_ne_nil sep rest)
      | cons seg segs =>
        rw [hr] at h
        simp at h
    · rw [if_neg hc] at h
      cases hr : splitCharList sep rest with
      | nil => exact absurd hr (splitCharList_ne_nil sep rest)
      | cons seg segs =>
        rw [hr] at h
        cases h
        obtain ⟨hseg, hcont⟩ := ih seg hr
        subst hseg
        simp only [List.contains_cons, Bool.or_eq_false_iff, beq_eq_false_iff_ne]
        exact ⟨trivial, fun hh => hc hh.symm, by simpa using hcont⟩

theorem getLast?_splitCharList (sep : Char) :
    ∀ l : List Char, (splitCharList sep l).getLast? = some (afterLastSep sep l) := by
  intro l
  induction l with
  | nil => rfl
  | cons c rest ih =>
    simp only [splitCharList, afterLastSep]
    by_cases hc : c = sep
    · rw [if_pos hc, if_pos (by simp [hc])]
      cases hr : splitCharList sep rest with
      | nil => exact absurd hr (splitCharList_ne_nil sep rest)
      | cons seg segs =>
        rw [hr] at ih
        rw [List.getLast?_cons_cons, ih]
    · rw [if_neg hc]
      cases hr : splitCharList sep rest with
      | nil => exact absurd hr (splitCharList_ne_nil sep rest)
      | cons seg segs =>
        cases segs with
        | nil =>
          obtain ⟨hseg, hcont⟩ := splitCharList_singleton sep rest seg hr
          subst hseg
          rw [hr] at ih
          rw [if_neg (by simp [hc]; simpa using hcont)]
          simp
        | cons s2 ss =>
          have hcont : rest.contains sep = true := by
            by_contra hfalse
            have h1 : splitCharList sep rest = [rest] :=
              splitCharList_of_not_contains sep rest (Bool.eq_false_iff.mpr hfalse)
            rw [h1] at hr
            simp at hr
          rw [if_pos (by simp; exact Or.inr (by simpa using hcont))]
          rw [hr] at ih
          rw [List.getLast?_cons_cons] at ih
          rw [List.getLast?_cons_cons]
          exact ih

theorem getLast?_jsSplitChar (s : String) (sep : Char) :
    (jsSplitChar s sep).getLast? = some (⟨afterLastSep sep s.data⟩ : String) := by
  unfold jsSplitChar
  rw [List.getLast?_map, getLast?_splitCharList]
  rfl

/-- `pushBranchName` on a string-valued `ref`: `unknown` when empty, the
suffix after the last `/` otherwise. -/
theorem pushBranchName_eq (s : String) :
    pushBranchName (some (.str s)) = if s = "" then "unknown" else afterLastSlash s := by
  show (if s = "" then "unknown" else ((jsSplitChar s '/').getLast?.getD "unknown")) = _
  by_cases hs : s = ""
  · rw [if_pos hs, if_pos hs]
  · rw [if_neg hs, if_neg hs, getLast?_jsSplitChar]
    rfl


/-- Claim C10 (corrected): the claim predicts the suffix after the final `/`
for every push whose `ref` field is a string; the code additionally maps the
empty string to the literal `unknown` (`typeof ref === "string" && ref`
requires a truthy, hence non-empty, string).  At `ref = ""` — a string — the
claim's formula gives `""`, yet the headline renders `unknown`. -/
theorem c10_counterexample_empty_ref :
    summarizePush (jObj [("ref", .str "")]) =
      "<b>Push</b> to branch <code>unknown</code> in <code>?</code> by <b>unknown</b> (0 commits)" ∧
    afterLastSlash "" = "" ∧ ("unknown" : String) ≠ "" := by
  refine ⟨by decide, by decide, by decide⟩

/-- Claim C10 as amended: for every push payload whose `ref` field is a
non-empty string `s`, the branch/tag name rendered in the headline is the
substring of `s` after its final `/`; when `ref` is absent, not a string, or
the empty string, the rendered name is the literal `unknown`. -/
theorem c10_push_branch_after_final_slash (payload : Json) (s : String) :
    (fget (ensureMapping (some payload)) "ref" = some (.str s) →
      (s ≠ "" → summarizePush payload = pushRenderWithBranch payload (afterLastSlash s)) ∧
      (s = "" → summarizePush payload = pushRenderWithBranch payload "unknown")) ∧
    ((∀ t : String, fget (ensureMapping (some payload)) "ref" ≠ some (.str t)) →
      summarizePush payload = pushRenderWithBranch payload "unknown") := by
  have base : summarizePush payload =
      pushRenderWithBranch payload
        (pushBranchName (orStr (fget (ensureMapping (some payload)) "ref") "")) := rfl
  constructor
  · intro href
    constructor
    · intro hs
      rw [base, href]
      congr 1
      rw [show orStr (some (Json.str s)) "" = some (Json.str s) from rfl,
        pushBranchName_eq, if_neg hs]
    · intro hs
      subst hs
      rw [base, href]
      rfl
  · intro hnone
    rw [base]
    congr 1
    cases hv : fget (ensureMapping (some payload)) "ref" with
    | none => rfl
    | some j =>
      cases j with
      | str t => exact absurd hv (hnone t)
      | null => rfl
      | bool b => rfl
      | num n => rfl
      | anil => rfl
      | acons a b => rfl
      | onil => rfl
      | ocons k v t => rfl

/-- Witness for `c10_push_branch_after_final_slash`: a nested ref renders its
final segment; a payload with no `ref` renders `unknown`. -/
theorem c10_push_branch_after_final_slash_witness :
    summarizePush (jObj [("ref", .str "refs/heads/feature/x")]) =
      pushRenderWithBranch (jObj [("ref", .str "refs/heads/feature/x")])
        (afterLastSlash "refs/heads/feature/x") ∧
    summarizePush (jObj [("a", .num 1)]) =
      pushRenderWithBranch (jObj [("a", .num 1)]) "unknown" :=
  ⟨((c10_push_branch_after_final_slash (jObj [("ref", .str "refs/heads/feature/x")])
      "refs/heads/feature/x").1 rfl).1 (by decide),
   (c10_push_branch_after_final_slash (jObj [("a", .num 1)]) "").2 (fun t h => nomatch h)⟩

end GhSummary
